import Mathlib

/-!
# Verification of the SynTera statistical comparison engine

This file gives a shallow embedding, in Lean 4, of the `ComparisonEngine`
class of `src/ml_engine/comparison_engine.py`, and proves (or refutes)
the frozen claims about it.

Modelling conventions, used throughout:

* Python floats are modelled as exact rationals (`ℚ`).  Arithmetic on
  finite rationals never produces `NaN` or `±Inf`, so the original
  `safe_float` sanitation is the identity on values computed internally
  from rational data; the only sources of non-finite values are the
  external library calls (`scipy`, `numpy`).
* A possibly non-finite Python float is modelled as `PyFloat := Option ℚ`,
  with `none` standing for `NaN` or `±Inf`.  IEEE comparisons with `NaN`
  are always false, which `pyGt`/`pyLt` reproduce; the Python builtin
  `min(x, c)` keeps a `NaN` first argument, which `pyMin` reproduces.
* External library routines (the `scipy.stats` tests, `np.tanh`,
  `np.sqrt`, `scipy.special.rel_entr`, `scipy.spatial.distance.jensenshannon`)
  are fields of an explicit `Scipy` oracle structure; calls that can raise
  a Python exception return `Except String _`.  Library routines that are
  simple, fully specified empirical formulas (the two-sample
  Kolmogorov-Smirnov statistic, the 1-d Wasserstein distance,
  `np.histogram`, `np.mean`, `np.median`, population variance) are
  implemented concretely below, following their documented semantics.
* A Python dict result is modelled as a structure whose `Option` fields
  record key presence; statistic echo fields that the engine only reports
  (never reads back) are stored as `Option ℚ` without distinguishing a key
  that is present with value `None` from an absent key, since no claim
  depends on that distinction.
-/

/-- A Python float that may be non-finite: `none` stands for `NaN`/`±Inf`. -/
abbrev PyFloat := Option ℚ

/-- `safe_float` from the source: `None` stays `None`, non-finite floats
(the `none` case of `PyFloat`) become `None`, finite values pass through. -/
def safe_float : PyFloat → PyFloat
  | none => none
  | some q => some q

/-- Python `value or 0.0` applied to an optional float. -/
def orZero (v : PyFloat) : ℚ := v.getD 0

/-- Python `v > c` where `v` may be `NaN` (comparisons with `NaN` are false). -/
def pyGt (v : PyFloat) (c : ℚ) : Bool :=
  match v with
  | some x => decide (c < x)
  | none => false

/-- Python `v < c` where `v` may be `NaN`. -/
def pyLt (v : PyFloat) (c : ℚ) : Bool :=
  match v with
  | some x => decide (x < c)
  | none => false

/-- Python builtin `min(v, c)`: a `NaN` first argument propagates. -/
def pyMin (v : PyFloat) (c : ℚ) : PyFloat := v.map (fun x => min x c)

/-- Python truthiness of a float: `0.0` is falsy, every other float
(including `NaN`) is truthy. -/
def pyTruthy (v : PyFloat) : Bool :=
  match v with
  | some x => decide (x ≠ 0)
  | none => true

/-- Python truthiness of an optional float: `None` is falsy. -/
def pyTruthyO : Option PyFloat → Bool
  | none => false
  | some v => pyTruthy v

/-- The p-value tier rule shared by several tests:
`p > 0.05 → TIER_1`, `p > 0.01 → TIER_2`, else `TIER_3`. -/
def pvalue_tier (p : PyFloat) : String :=
  if pyGt p 0.05 then "TIER_1" else if pyGt p 0.01 then "TIER_2" else "TIER_3"

/-- Python `max(xs)` on a non-empty list (0 on the empty list, unreached). -/
def listMax : List ℚ → ℚ
  | [] => 0
  | x :: xs => xs.foldl max x

/-- Python `min(xs)` on a non-empty list (0 on the empty list, unreached). -/
def listMin : List ℚ → ℚ
  | [] => 0
  | x :: xs => xs.foldl min x

/-- `np.mean`. -/
def qmean (xs : List ℚ) : ℚ := xs.sum / xs.length

/-- Population variance, so that `np.std xs = sqrt (popVariance xs)`. -/
def popVariance (xs : List ℚ) : ℚ :=
  qmean (xs.map (fun x => (x - qmean xs) ^ 2))

/-- `np.median`: middle element of the sorted list, or the average of the
two middle elements for even length. -/
def npMedian (xs : List ℚ) : ℚ :=
  let s := xs.insertionSort (· ≤ ·)
  let n := s.length
  if n % 2 = 1 then s.getD (n / 2) 0
  else (s.getD (n / 2 - 1) 0 + s.getD (n / 2) 0) / 2

/-- Empirical cumulative distribution function of a sample at `t`:
the fraction of sample points `≤ t`. -/
def ecdf (xs : List ℚ) (t : ℚ) : ℚ :=
  (xs.countP (fun x => decide (x ≤ t)) : ℚ) / xs.length

/-- The two-sample Kolmogorov-Smirnov statistic computed by
`scipy.stats.ks_2samp`: the largest absolute difference of the two
empirical CDFs, attained at a data point. -/
def ks_statistic (u v : List ℚ) : ℚ :=
  ((u ++ v).map (fun t => |ecdf u t - ecdf v t|)).foldl max 0

/-- `Σ |F_u(aᵢ) - F_v(aᵢ)| · (aᵢ₊₁ - aᵢ)` over consecutive points of a
sorted list of evaluation points. -/
def cdfDiffSum (u v : List ℚ) : List ℚ → ℚ
  | a :: b :: rest => |ecdf u a - ecdf v a| * (b - a) + cdfDiffSum u v (b :: rest)
  | _ => 0

/-- `scipy.stats.wasserstein_distance` for 1-d samples with uniform
weights: the integral of the absolute difference of the two empirical
CDFs, evaluated piecewise between consecutive pooled data points. -/
def wasserstein_distance (u v : List ℚ) : ℚ :=
  cdfDiffSum u v ((u ++ v).insertionSort (· ≤ ·))

/-- Bin edges of `np.histogram` over `[lo, hi]` with `n` equal bins. -/
def binEdges (lo hi : ℚ) (n : ℕ) (i : ℕ) : ℚ := lo + (hi - lo) * i / n

/-- The bin that `np.histogram` assigns to an in-range value: bins are
half-open `[eᵢ, eᵢ₊₁)` except the last, which is closed. -/
def binIndexOf (lo hi : ℚ) (n : ℕ) (x : ℚ) : ℕ :=
  (((List.range (n - 1)).find? (fun i => decide (x < binEdges lo hi n (i + 1)))).getD (n - 1))

/-- Histogram counts over `n` equal bins spanning `[lo, hi]`. -/
def histCounts (lo hi : ℚ) (n : ℕ) (xs : List ℚ) : List ℕ :=
  (List.range n).map (fun i => xs.countP (fun x => decide (binIndexOf lo hi n x = i)))

/-- The range `np.histogram` uses when given an integer bin count: the
own min and max of the data, widened by 0.5 on each side when they coincide. -/
def histRange (xs : List ℚ) : ℚ × ℚ :=
  let mn := listMin xs
  let mx := listMax xs
  if mn = mx then (mn - 0.5, mx + 0.5) else (mn, mx)

/-- `np.histogram(xs, bins := n)`: counts over `n` equal bins spanning the
own range of the sample. -/
def npHistogramCounts (xs : List ℚ) (n : ℕ) : List ℕ :=
  histCounts (histRange xs).1 (histRange xs).2 n xs

/-- The external statistical library (`scipy`/`numpy`) as an abstract
oracle.  Calls that can raise a Python exception return `Except String _`
(the engine catches every exception per test); routines that only return
floats return `PyFloat`s.  Theorems below hold for every oracle, or state
the mathematically guaranteed range facts about the outputs of an oracle as
explicit hypotheses. -/
structure Scipy where
  /-- `scipy.stats.chi2_contingency` on the 2-row contingency table:
  returns `(chi2, p_value)`; raises e.g. when an expected frequency is 0. -/
  chi2_contingency : List ℕ → List ℕ → Except String (PyFloat × PyFloat)
  /-- The p-value of `scipy.stats.ks_2samp` (its statistic is the concrete
  `ks_statistic` above); raises on empty input. -/
  ks_2samp : List ℚ → List ℚ → Except String PyFloat
  /-- `scipy.spatial.distance.jensenshannon` on two probability vectors. -/
  jensenshannon : List ℚ → List ℚ → PyFloat
  /-- `scipy.stats.mannwhitneyu(·, ·, alternative = two-sided)`:
  `(statistic, p_value)`. -/
  mannwhitneyu : List ℚ → List ℚ → Except String (PyFloat × PyFloat)
  /-- `scipy.stats.ttest_ind`: `(statistic, p_value)`. -/
  ttest_ind : List ℚ → List ℚ → Except String (PyFloat × PyFloat)
  /-- `scipy.stats.anderson_ksamp` on the two samples: the statistic and,
  when the result object exposes a `pvalue` attribute, its value (`none`
  models both a missing attribute and an attribute holding `None`). -/
  anderson_ksamp : List ℚ → List ℚ → Except String (PyFloat × Option PyFloat)
  /-- `scipy.stats.pearsonr`: `(r, p_value)`; `r` is `NaN` for constant input. -/
  pearsonr : List ℚ → List ℚ → Except String (PyFloat × PyFloat)
  /-- `scipy.stats.spearmanr`: `(r, p_value)`; `r` is `NaN` for constant input. -/
  spearmanr : List ℚ → List ℚ → Except String (PyFloat × PyFloat)
  /-- `scipy.stats.cramervonmises_2samp`: `(statistic, pvalue)`. -/
  cramervonmises_2samp : List ℚ → List ℚ → Except String (PyFloat × PyFloat)
  /-- `np.sum(scipy.special.rel_entr(p, q))`. -/
  rel_entr_sum : List ℚ → List ℚ → PyFloat
  /-- `np.tanh`. -/
  tanh : ℚ → ℚ
  /-- `np.sqrt` on a nonnegative rational. -/
  sqrt : ℚ → ℚ

/-- The result dict of one test.  `Option` fields model key presence; fields
every test leaves absent default to `none`.  Purely reported echo fields
that no aggregation logic reads (`mae`, `rmse`, the summary-statistics
echoes, per-coefficient p-values, ...) are included where they appear in
the source records. -/
structure TestResult where
  test : String
  chi2 : Option ℚ := none
  p_value : Option ℚ := none
  ks_statistic : Option ℚ := none
  statistic : Option ℚ := none
  divergence : Option ℚ := none
  normalized_divergence : Option ℚ := none
  distance : Option ℚ := none
  normalized_distance : Option ℚ := none
  pearson_r : Option ℚ := none
  pearson_p : Option ℚ := none
  spearman_r : Option ℚ := none
  spearman_p : Option ℚ := none
  average_correlation : Option ℚ := none
  mae : Option ℚ := none
  rmse : Option ℚ := none
  normalized_mae : Option ℚ := none
  normalized_rmse : Option ℚ := none
  synthetic_mean : Option ℚ := none
  synthetic_std : Option ℚ := none
  synthetic_median : Option ℚ := none
  real_mean : Option ℚ := none
  real_std : Option ℚ := none
  real_median : Option ℚ := none
  mean_difference : Option ℚ := none
  std_difference : Option ℚ := none
  median_difference : Option ℚ := none
  normalized_mean_diff : Option ℚ := none
  normalized_std_diff : Option ℚ := none
  tier : Option String := none
  match_score : Option ℚ := none
  interpretation : Option String := none
  error : Option String := none
deriving DecidableEq

instance : Inhabited TestResult := ⟨{ test := "" }⟩

/-- The `tier_distribution` dict of the aggregate result. -/
structure TierCounts where
  tier_1 : ℕ
  tier_2 : ℕ
  tier_3 : ℕ
  tier_4 : ℕ
deriving DecidableEq

/-- The `test_summary` dict of the aggregate result. -/
structure TestSummary where
  total_tests : ℕ
  successful_tests : ℕ
  failed_tests : ℕ
  tier_1_count : ℕ
  tier_2_count : ℕ
  tier_3_count : ℕ
  tier_4_count : ℕ
  average_match_score : ℚ
  tier_1_ratio : ℚ
  tier_2_ratio : ℚ
deriving DecidableEq

/-- The aggregate `ComparisonResult` dict; `Option` fields record key
presence (the two early returns set only `tests` and `overall_tier`). -/
structure ComparisonResult where
  synthetic_size : ℕ
  real_size : ℕ
  tests : List TestResult
  overall_tier : Option String := none
  overall_accuracy : Option ℚ := none
  tier_distribution : Option TierCounts := none
  test_summary : Option TestSummary := none
  recommendations : Option (List String) := none
deriving DecidableEq

/-- `ComparisonEngine.chi_square_test`, split so the contingency rows the
engine passes to `chi2_contingency` are a named definition:
`n_bins = min(10, len(np.unique(all_values)))`, raised to 2 if below. -/
def n_bins_for (all_values : List ℚ) : ℕ :=
  let n := min 10 all_values.dedup.length
  if n < 2 then 2 else n

/-- The two rows of the contingency table `chi_square_test` builds:
`np.histogram(syn_arr, bins=n_bins)` and `np.histogram(real_arr, bins=n_bins)`
(each histogram spans the range of its own sample, `bins` being an integer). -/
def chi_contingency_rows (synthetic_data real_data : List ℚ) : List ℕ × List ℕ :=
  let n_bins := n_bins_for (synthetic_data ++ real_data)
  (npHistogramCounts synthetic_data n_bins, npHistogramCounts real_data n_bins)

/-- `ComparisonEngine.chi_square_test`. -/
def chi_square_test (o : Scipy) (synthetic_data real_data : List ℚ) : TestResult :=
  let all_values := synthetic_data ++ real_data
  if all_values.length = 0 then
    { test := "chi_square", error := some "Empty data" }
  else
    let rows := chi_contingency_rows synthetic_data real_data
    match o.chi2_contingency rows.1 rows.2 with
    | .error e => { test := "chi_square", error := some e }
    | .ok (chi2, p_value) =>
      { test := "chi_square",
        chi2 := some (orZero (safe_float chi2)),
        p_value := some (orZero (safe_float p_value)),
        tier := some (pvalue_tier p_value),
        match_score := some (orZero (safe_float p_value)),
        interpretation := some "Compares frequency distributions between synthetic and real data. Higher p-value means more similar distributions." }

/-- `ComparisonEngine.ks_test`. -/
def ks_test (o : Scipy) (synthetic_data real_data : List ℚ) : TestResult :=
  match o.ks_2samp synthetic_data real_data with
  | .error e => { test := "ks_test", error := some e }
  | .ok p_value =>
    let ks_stat := ks_statistic synthetic_data real_data
    let tier := if ks_stat < 0.10 then "TIER_1" else if ks_stat < 0.20 then "TIER_2" else "TIER_3"
    { test := "ks_test",
      ks_statistic := some (orZero (safe_float (some ks_stat))),
      p_value := some (orZero (safe_float p_value)),
      tier := some tier,
      match_score := some (orZero (safe_float (some (1 - ks_stat)))) }

/-- `ComparisonEngine.jensen_shannon_divergence`. -/
def jensen_shannon_divergence (o : Scipy) (synthetic_probs real_probs : List ℚ) : TestResult :=
  let syn_sum := synthetic_probs.sum
  let real_sum := real_probs.sum
  if syn_sum = 0 ∨ real_sum = 0 then
    { test := "jensen_shannon", error := some "Cannot normalize: one or both arrays sum to zero" }
  else
    let p := synthetic_probs.map (· / syn_sum)
    let q := real_probs.map (· / real_sum)
    let max_len := max p.length q.length
    let p := p ++ List.replicate (max_len - p.length) 0
    let q := q ++ List.replicate (max_len - q.length) 0
    let js_div := o.jensenshannon p q
    let tier := if pyLt js_div 0.05 then "TIER_1" else if pyLt js_div 0.15 then "TIER_2" else "TIER_3"
    { test := "jensen_shannon",
      divergence := some (orZero (safe_float js_div)),
      tier := some tier,
      match_score := some (orZero (safe_float ((pyMin js_div 1).map (fun x => 1 - x)))),
      interpretation := some "Measures similarity between probability distributions. Lower divergence means higher similarity." }

/-- `ComparisonEngine.mann_whitney_test`. -/
def mann_whitney_test (o : Scipy) (synthetic_data real_data : List ℚ) : TestResult :=
  if synthetic_data.length < 3 ∨ real_data.length < 3 then
    { test := "mann_whitney", error := some "Insufficient data (need at least 3 samples)" }
  else
    match o.mannwhitneyu synthetic_data real_data with
    | .error e => { test := "mann_whitney", error := some e }
    | .ok (statistic, p_value) =>
      { test := "mann_whitney",
        statistic := some (orZero (safe_float statistic)),
        p_value := some (orZero (safe_float p_value)),
        tier := some (pvalue_tier p_value),
        match_score := some (orZero (safe_float p_value)),
        interpretation := some "Tests if distributions have the same median. Higher p-value means similar medians." }

/-- `ComparisonEngine.t_test`. -/
def t_test (o : Scipy) (synthetic_data real_data : List ℚ) : TestResult :=
  if synthetic_data.length < 2 ∨ real_data.length < 2 then
    { test := "t_test", error := some "Insufficient data (need at least 2 samples)" }
  else
    match o.ttest_ind synthetic_data real_data with
    | .error e => { test := "t_test", error := some e }
    | .ok (statistic, p_value) =>
      { test := "t_test",
        statistic := some (orZero (safe_float statistic)),
        p_value := some (orZero (safe_float p_value)),
        tier := some (pvalue_tier p_value),
        match_score := some (orZero (safe_float p_value)),
        interpretation := some "Tests if distributions have the same mean. Higher p-value means similar means." }

/-- `ComparisonEngine.anderson_darling_test`. -/
def anderson_darling_test (o : Scipy) (synthetic_data real_data : List ℚ) : TestResult :=
  if synthetic_data.length < 3 ∨ real_data.length < 3 then
    { test := "anderson_darling", error := some "Insufficient data" }
  else
    match o.anderson_ksamp synthetic_data real_data with
    | .error e => { test := "anderson_darling", error := some e }
    | .ok (statistic, p_attr) =>
      let p_value : Option PyFloat := p_attr
      if pyTruthyO p_value then
        let pv := p_value.getD none
        { test := "anderson_darling",
          statistic := some (orZero (safe_float statistic)),
          p_value := safe_float pv,
          tier := some (pvalue_tier pv),
          match_score := some (orZero (safe_float pv)),
          interpretation := some "Tests if samples come from the same distribution. Lower statistic or higher p-value means similar distributions." }
      else
        let norm_stat : PyFloat :=
          if pyLt statistic 5 then pyMin (statistic.map (fun s => s / 5)) 1 else some 1
        let match_score := orZero (safe_float (norm_stat.map (fun x => 1 - x)))
        let tier := if match_score > 0.80 then "TIER_1" else if match_score > 0.60 then "TIER_2" else "TIER_3"
        { test := "anderson_darling",
          statistic := some (orZero (safe_float statistic)),
          p_value := none,
          tier := some tier,
          match_score := some match_score,
          interpretation := some "Tests if samples come from the same distribution. Lower statistic or higher p-value means similar distributions." }

/-- `ComparisonEngine.wasserstein_distance_test` (calls no abstract oracle:
the 1-d earth-mover distance is the concrete `wasserstein_distance`). -/
def wasserstein_distance_test (synthetic_data real_data : List ℚ) : TestResult :=
  if synthetic_data.length = 0 ∨ real_data.length = 0 then
    { test := "wasserstein_distance", error := some "Empty data" }
  else
    let distance := wasserstein_distance synthetic_data real_data
    let data_range := max (listMax synthetic_data) (listMax real_data)
                      - min (listMin synthetic_data) (listMin real_data)
    let normalized := if data_range > 0 then distance / data_range else distance
    let tier := if normalized < 0.10 then "TIER_1" else if normalized < 0.25 then "TIER_2" else "TIER_3"
    { test := "wasserstein_distance",
      distance := some (orZero (safe_float (some distance))),
      normalized_distance := some (orZero (safe_float (some normalized))),
      tier := some tier,
      match_score := some (orZero (safe_float (some (1 - min normalized 1)))),
      interpretation := some "Measures minimum cost to transform one distribution to another" }

/-- `ComparisonEngine.correlation_test`. -/
def correlation_test (o : Scipy) (synthetic_data real_data : List ℚ) : TestResult :=
  let min_len := min synthetic_data.length real_data.length
  let td :=
    if synthetic_data.length ≠ real_data.length then
      (synthetic_data.take min_len, real_data.take min_len)
    else (synthetic_data, real_data)
  let synthetic_data := td.1
  let real_data := td.2
  if synthetic_data.length < 3 then
    { test := "correlation", error := some "Insufficient data" }
  else
    match o.pearsonr synthetic_data real_data with
    | .error e => { test := "correlation", error := some e }
    | .ok (pearson_r, pearson_p) =>
      match o.spearmanr synthetic_data real_data with
      | .error e => { test := "correlation", error := some e }
      | .ok (spearman_r, spearman_p) =>
        let avg_corr : PyFloat :=
          match pearson_r, spearman_r with
          | some a, some b => some ((|a| + |b|) / 2)
          | _, _ => none
        let tier := if pyGt avg_corr 0.95 then "TIER_1" else if pyGt avg_corr 0.85 then "TIER_2" else "TIER_3"
        let match_score := orZero (safe_float avg_corr)
        { test := "correlation",
          pearson_r := some (orZero (safe_float pearson_r)),
          pearson_p := some (orZero (safe_float pearson_p)),
          spearman_r := some (orZero (safe_float spearman_r)),
          spearman_p := some (orZero (safe_float spearman_p)),
          average_correlation := some match_score,
          tier := some tier,
          match_score := some match_score,
          interpretation := some "Measures linear (Pearson) and monotonic (Spearman) relationships" }

/-- `ComparisonEngine.error_metrics`. -/
def error_metrics (o : Scipy) (synthetic_data real_data : List ℚ) : TestResult :=
  let min_len := min synthetic_data.length real_data.length
  let td :=
    if synthetic_data.length ≠ real_data.length then
      (synthetic_data.take min_len, real_data.take min_len)
    else (synthetic_data, real_data)
  let synthetic_data := td.1
  let real_data := td.2
  if synthetic_data.length = 0 then
    { test := "error_metrics", error := some "Empty data" }
  else
    let diffs := List.zipWith (fun a b => a - b) synthetic_data real_data
    let mae := qmean (diffs.map (fun d => |d|))
    let rmse := o.sqrt (qmean (diffs.map (fun d => d ^ 2)))
    let data_range := max (listMax synthetic_data) (listMax real_data)
                      - min (listMin synthetic_data) (listMin real_data)
    let normalized_mae := if data_range > 0 then orZero (safe_float (some (mae / data_range)))
                          else orZero (safe_float (some mae))
    let normalized_rmse := if data_range > 0 then orZero (safe_float (some (rmse / data_range)))
                           else orZero (safe_float (some rmse))
    let avg_error := orZero (safe_float (some ((normalized_mae + normalized_rmse) / 2)))
    let tier := if avg_error < 0.10 then "TIER_1" else if avg_error < 0.25 then "TIER_2" else "TIER_3"
    { test := "error_metrics",
      mae := some (orZero (safe_float (some mae))),
      rmse := some (orZero (safe_float (some rmse))),
      normalized_mae := some normalized_mae,
      normalized_rmse := some normalized_rmse,
      tier := some tier,
      match_score := some (orZero (safe_float (some (1 - min avg_error 1)))),
      interpretation := some "Measures prediction accuracy (lower is better)" }

/-- `ComparisonEngine.distribution_summary`; `np.std` is
`o.sqrt (popVariance ·)`.  Over exact rationals the surrounding try-block
cannot raise, so this test always succeeds. -/
def distribution_summary (o : Scipy) (synthetic_data real_data : List ℚ) : TestResult :=
  let syn_mean := if synthetic_data.length > 0 then orZero (safe_float (some (qmean synthetic_data))) else 0
  let syn_std := if synthetic_data.length > 1 then orZero (safe_float (some (o.sqrt (popVariance synthetic_data)))) else 0
  let syn_median := if synthetic_data.length > 0 then orZero (safe_float (some (npMedian synthetic_data))) else 0
  let real_mean := if real_data.length > 0 then orZero (safe_float (some (qmean real_data))) else 0
  let real_std := if real_data.length > 1 then orZero (safe_float (some (o.sqrt (popVariance real_data)))) else 0
  let real_median := if real_data.length > 0 then orZero (safe_float (some (npMedian real_data))) else 0
  let mean_diff := |syn_mean - real_mean|
  let std_diff := |syn_std - real_std|
  let median_diff := |syn_median - real_median|
  let mean_range := if max |syn_mean| |real_mean| > 0 then max |syn_mean| |real_mean| else 1
  let std_range := if max syn_std real_std > 0 then max syn_std real_std else 1
  let normalized_mean_diff := if mean_range > 0 then orZero (safe_float (some (mean_diff / mean_range))) else 0
  let normalized_std_diff := if std_range > 0 then orZero (safe_float (some (std_diff / std_range))) else 0
  let avg_diff := orZero (safe_float (some ((normalized_mean_diff + normalized_std_diff) / 2)))
  let tier := if avg_diff < 0.10 then "TIER_1" else if avg_diff < 0.25 then "TIER_2" else "TIER_3"
  { test := "distribution_summary",
    synthetic_mean := some syn_mean,
    synthetic_std := some syn_std,
    synthetic_median := some syn_median,
    real_mean := some real_mean,
    real_std := some real_std,
    real_median := some real_median,
    mean_difference := some mean_diff,
    std_difference := some std_diff,
    median_difference := some median_diff,
    normalized_mean_diff := some normalized_mean_diff,
    normalized_std_diff := some normalized_std_diff,
    tier := some tier,
    match_score := some (orZero (safe_float (some (1 - min avg_diff 1)))),
    interpretation := some "Compares mean, standard deviation, and median" }

/-- `ComparisonEngine.kullback_leibler_divergence`. -/
def kullback_leibler_divergence (o : Scipy) (synthetic_data real_data : List ℚ) : TestResult :=
  let syn_sum := synthetic_data.sum
  let real_sum := real_data.sum
  if syn_sum = 0 ∨ real_sum = 0 then
    { test := "kullback_leibler", error := some "Cannot normalize: one or both arrays sum to zero" }
  else
    let eps : ℚ := 1 / 10000000000
    let p := synthetic_data.map (· / syn_sum)
    let q := real_data.map (· / real_sum)
    let max_len := max p.length q.length
    let p := p ++ List.replicate (max_len - p.length) eps
    let q := q ++ List.replicate (max_len - q.length) eps
    let p := p.map (fun x => max x eps)
    let q := q.map (fun x => max x eps)
    let kl_div := o.rel_entr_sum p q
    let normalized_kl := orZero (safe_float ((pyMin kl_div 10).map (fun x => o.tanh (x / 5))))
    let tier := if normalized_kl < 0.10 then "TIER_1" else if normalized_kl < 0.30 then "TIER_2" else "TIER_3"
    { test := "kullback_leibler",
      divergence := some (orZero (safe_float kl_div)),
      normalized_divergence := some normalized_kl,
      tier := some tier,
      match_score := some (orZero (safe_float (some (1 - normalized_kl)))),
      interpretation := some "Measures information gain when using real data to approximate synthetic data. Lower is better." }

/-- `ComparisonEngine.cramer_von_mises_test`: the scipy result object
always exposes a `pvalue` attribute, so `p_value` is the returned p-value. -/
def cramer_von_mises_test (o : Scipy) (synthetic_data real_data : List ℚ) : TestResult :=
  if synthetic_data.length < 3 ∨ real_data.length < 3 then
    { test := "cramer_von_mises", error := some "Insufficient data (need at least 3 samples)" }
  else
    match o.cramervonmises_2samp synthetic_data real_data with
    | .error e => { test := "cramer_von_mises", error := some e }
    | .ok (statistic, pvalue) =>
      let p_value : PyFloat := pvalue
      if pyTruthy p_value then
        { test := "cramer_von_mises",
          statistic := some (orZero (safe_float statistic)),
          p_value := safe_float p_value,
          tier := some (pvalue_tier p_value),
          match_score := some (orZero (safe_float p_value)),
          interpretation := some "Tests if samples come from the same distribution. Higher p-value or lower statistic means similar distributions." }
      else
        let norm_stat := pyMin (statistic.map (fun s => s / 2)) 1
        let match_score := orZero (safe_float (norm_stat.map (fun x => 1 - x)))
        let tier := if match_score > 0.80 then "TIER_1" else if match_score > 0.60 then "TIER_2" else "TIER_3"
        { test := "cramer_von_mises",
          statistic := some (orZero (safe_float statistic)),
          p_value := none,
          tier := some tier,
          match_score := some match_score,
          interpretation := some "Tests if samples come from the same distribution. Higher p-value or lower statistic means similar distributions." }

/-- The twelve tests, in the fixed order `compare_distributions` runs them. -/
def run_all_tests (o : Scipy) (syn_list real_list : List ℚ) : List TestResult :=
  [chi_square_test o syn_list real_list,
   ks_test o syn_list real_list,
   jensen_shannon_divergence o syn_list real_list,
   mann_whitney_test o syn_list real_list,
   t_test o syn_list real_list,
   anderson_darling_test o syn_list real_list,
   wasserstein_distance_test syn_list real_list,
   correlation_test o syn_list real_list,
   error_metrics o syn_list real_list,
   distribution_summary o syn_list real_list,
   kullback_leibler_divergence o syn_list real_list,
   cramer_von_mises_test o syn_list real_list]

/-- `tiers = [t.get("tier") for t in tests if "tier" in t and "error" not in t]`. -/
def collect_tiers (tests : List TestResult) : List String :=
  tests.filterMap (fun t => match t.error with
    | some _ => none
    | none => t.tier)

/-- `max(0.0, min(1.0, x))`. -/
def clamp01 (x : ℚ) : ℚ := max 0 (min 1 x)

/-- The match scores collected for averaging: from every test whose dict
has a `match_score` key and no `error` key (the score itself, a finite
rational in this model, is never `None` and clamps to `[0,1]`). -/
def collect_match_scores (tests : List TestResult) : List ℚ :=
  tests.filterMap (fun t => match t.error with
    | some _ => none
    | none => t.match_score.map clamp01)

/-- The `overall_accuracy_score` computation of `compare_distributions`:
the clamped arithmetic mean of the collected match scores, or the 0.5
default when none were collected. -/
def overall_accuracy_score (tests : List TestResult) : ℚ :=
  let match_scores := collect_match_scores tests
  if match_scores.isEmpty then 0.5
  else clamp01 (match_scores.sum / match_scores.length)

/-- The overall-tier rule of `compare_distributions`:
accuracy `> 0.85 → TIER_1`, `> 0.75 → TIER_2`, `> 0.50 → TIER_3`, else `TIER_4`. -/
def overall_tier_of (a : ℚ) : String :=
  if a > 0.85 then "TIER_1"
  else if a > 0.75 then "TIER_2"
  else if a > 0.50 then "TIER_3"
  else "TIER_4"

/-- The `tier_counts` dict. -/
def tier_counts_of (tiers : List String) : TierCounts :=
  { tier_1 := tiers.count "TIER_1",
    tier_2 := tiers.count "TIER_2",
    tier_3 := tiers.count "TIER_3",
    tier_4 := tiers.count "TIER_4" }

/-- The recommendation strings (the source interpolates the accuracy as a
percentage and, for TIER_4, the TIER_4 count; punctuation without
apostrophes, text otherwise as in the source). -/
def recommendations_for (overall_tier : String) (a : ℚ) (tc : TierCounts) (n_tiers : ℕ) : List String :=
  if overall_tier = "TIER_1" then
    ["Your synthetic data is an excellent match for the real data (accuracy: " ++ toString a ++ "). It is ready for use in critical applications!"]
  else if overall_tier = "TIER_2" then
    ["Your synthetic data shows a good match (accuracy: " ++ toString a ++ "), but there is room for improvement. Consider refining your data generation process or reviewing specific test results for areas to enhance.",
     "Focus on tests that returned TIER_2, TIER_3 or TIER_4 to pinpoint specific discrepancies."]
  else if overall_tier = "TIER_3" then
    ["Your synthetic data needs improvement to match the real data (accuracy: " ++ toString a ++ "). Review the detailed test results to identify discrepancies and adjust your data generation strategy.",
     "Pay close attention to tests with TIER_3 or TIER_4 status and consider generating more diverse or representative synthetic samples."]
  else
    ["Your synthetic data needs significant improvement (accuracy: " ++ toString a ++ "). Review the detailed test results to identify major discrepancies and adjust your data generation strategy.",
     "Focus on tests with TIER_4 status (" ++ toString tc.tier_4 ++ " out of " ++ toString n_tiers ++ " tests) and consider generating more diverse or representative synthetic samples."]

/-- `ComparisonEngine.compare_distributions`.  For list inputs, the Python idiom
`list(x) if x else []` is the identity, and `len()` of the argument equals
the length of the coerced list. -/
def compare_distributions (o : Scipy) (synthetic_data real_data : List ℚ) : ComparisonResult :=
  let syn_list := synthetic_data
  let real_list := real_data
  if syn_list.length = 0 ∨ real_list.length = 0 then
    { synthetic_size := synthetic_data.length,
      real_size := real_data.length,
      tests := [{ test := "data_validation", error := some "One or both datasets are empty" }],
      overall_tier := some "TIER_4" }
  else
    let tests := run_all_tests o syn_list real_list
    let tiers := collect_tiers tests
    if tiers.length = 0 then
      { synthetic_size := synthetic_data.length,
        real_size := real_data.length,
        tests := tests,
        overall_tier := some "TIER_4" }
    else
      let tier_counts := tier_counts_of tiers
      let overall_accuracy_score := overall_accuracy_score tests
      let tier_1_ratio := if tiers.length > 0 then (tier_counts.tier_1 : ℚ) / tiers.length else 0
      let tier_2_ratio := if tiers.length > 0 then (tier_counts.tier_2 : ℚ) / tiers.length else 0
      let overall_tier := overall_tier_of overall_accuracy_score
      { synthetic_size := synthetic_data.length,
        real_size := real_data.length,
        tests := tests,
        overall_tier := some overall_tier,
        overall_accuracy := some overall_accuracy_score,
        tier_distribution := some tier_counts,
        test_summary := some
          { total_tests := tests.length,
            successful_tests := tiers.length,
            failed_tests := tests.length - tiers.length,
            tier_1_count := tier_counts.tier_1,
            tier_2_count := tier_counts.tier_2,
            tier_3_count := tier_counts.tier_3,
            tier_4_count := tier_counts.tier_4,
            average_match_score := overall_accuracy_score,
            tier_1_ratio := tier_1_ratio,
            tier_2_ratio := tier_2_ratio },
        recommendations := some (recommendations_for overall_tier overall_accuracy_score tier_counts tiers.length) }

/-- The contingency rows that would implement the words of the specification
for `chi_square_test`: both samples binned with the same bin edges,
derived from the combined data (refinement target for comparison with
`chi_contingency_rows`; not the computation of the source). -/
def chi_contingency_rows_specced (synthetic_data real_data : List ℚ) : List ℕ × List ℕ :=
  let all_values := synthetic_data ++ real_data
  let n_bins := n_bins_for all_values
  let r := histRange all_values
  (histCounts r.1 r.2 n_bins synthetic_data, histCounts r.1 r.2 n_bins real_data)

/-! ## Basic lemmas about the numeric helpers -/

theorem clamp01_nonneg (x : ℚ) : 0 ≤ clamp01 x := le_max_left 0 _

theorem clamp01_le_one (x : ℚ) : clamp01 x ≤ 1 := by
  unfold clamp01
  rcases le_total 1 x with h | h
  · simp [min_eq_left h]
  · have : min 1 x ≤ 1 := min_le_left 1 x
    exact max_le (by norm_num) this

theorem clamp01_eq_of_mem {x : ℚ} (h0 : 0 ≤ x) (h1 : x ≤ 1) : clamp01 x = x := by
  unfold clamp01
  rw [min_eq_right h1, max_eq_right h0]

theorem le_foldl_max (l : List ℚ) (a : ℚ) : a ≤ l.foldl max a := by
  induction l generalizing a with
  | nil => simp
  | cons x xs ih => exact le_trans (le_max_left a x) (ih (max a x))

theorem foldl_max_le {l : List ℚ} {a c : ℚ} (ha : a ≤ c) (h : ∀ x ∈ l, x ≤ c) :
    l.foldl max a ≤ c := by
  induction l generalizing a with
  | nil => simpa
  | cons x xs ih =>
    exact ih (max_le ha (h x (List.mem_cons_self x xs))) (fun y hy => h y (List.mem_cons_of_mem x hy))

theorem ecdf_nonneg (xs : List ℚ) (t : ℚ) : 0 ≤ ecdf xs t := by
  unfold ecdf
  positivity

theorem ecdf_le_one (xs : List ℚ) (t : ℚ) : ecdf xs t ≤ 1 := by
  unfold ecdf
  rcases Nat.eq_zero_or_pos xs.length with h | h
  · simp [h]
  · rw [div_le_one (by exact_mod_cast h)]
    exact_mod_cast xs.countP_le_length _

theorem ks_statistic_nonneg (u v : List ℚ) : 0 ≤ ks_statistic u v :=
  le_foldl_max _ 0

theorem ks_statistic_le_one (u v : List ℚ) : ks_statistic u v ≤ 1 := by
  unfold ks_statistic
  refine foldl_max_le (by norm_num) ?_
  intro x hx
  rcases List.mem_map.mp hx with ⟨t, _, rfl⟩
  rw [abs_sub_le_iff]
  constructor
  · have := ecdf_le_one u t
    have := ecdf_nonneg v t
    linarith
  · have := ecdf_le_one v t
    have := ecdf_nonneg u t
    linarith

theorem ks_statistic_self (x : List ℚ) : ks_statistic x x = 0 := by
  unfold ks_statistic
  refine le_antisymm (foldl_max_le le_rfl ?_) (le_foldl_max _ 0)
  intro y hy
  rcases List.mem_map.mp hy with ⟨t, _, rfl⟩
  simp

theorem cdfDiffSum_self (x : List ℚ) (l : List ℚ) : cdfDiffSum x x l = 0 := by
  induction l with
  | nil => rfl
  | cons a rest ih =>
    cases rest with
    | nil => rfl
    | cons b r2 =>
      rw [cdfDiffSum, ih]
      simp

theorem cdfDiffSum_nonneg (u v : List ℚ) :
    ∀ l : List ℚ, l.Chain' (· ≤ ·) → 0 ≤ cdfDiffSum u v l
  | [], _ => le_refl 0
  | [_], _ => le_refl 0
  | a :: b :: rest, h => by
    rw [cdfDiffSum]
    have hab : a ≤ b := (List.chain'_cons.mp h).1
    have hrest := (List.chain'_cons.mp h).2
    have ih := cdfDiffSum_nonneg u v (b :: rest) hrest
    have : 0 ≤ |ecdf u a - ecdf v a| * (b - a) :=
      mul_nonneg (abs_nonneg _) (by linarith)
    linarith

theorem wasserstein_distance_self (x : List ℚ) : wasserstein_distance x x = 0 :=
  cdfDiffSum_self x _

theorem wasserstein_distance_nonneg (u v : List ℚ) : 0 ≤ wasserstein_distance u v := by
  unfold wasserstein_distance
  refine cdfDiffSum_nonneg u v _ ?_
  exact (List.sorted_insertionSort (· ≤ ·) (u ++ v)).chain'

theorem qmean_nonneg {xs : List ℚ} (h : ∀ x ∈ xs, 0 ≤ x) : 0 ≤ qmean xs := by
  unfold qmean
  have : 0 ≤ xs.sum := List.sum_nonneg h
  positivity

theorem qmean_mem_of_bounds {xs : List ℚ} (hne : xs ≠ [])
    (h : ∀ x ∈ xs, 0 ≤ x ∧ x ≤ 1) : 0 ≤ qmean xs ∧ qmean xs ≤ 1 := by
  have hlen : 0 < (xs.length : ℚ) := by
    have := List.length_pos.mpr hne
    exact_mod_cast this
  constructor
  · exact qmean_nonneg (fun x hx => (h x hx).1)
  · unfold qmean
    rw [div_le_one hlen]
    calc xs.sum ≤ xs.length • (1 : ℚ) :=
          List.sum_le_card_nsmul xs 1 (fun x hx => (h x hx).2)
    _ = xs.length := by simp

/-! ## Histogram lemmas -/

theorem binIndexOf_lt {n : ℕ} (hn : 0 < n) (lo hi x : ℚ) : binIndexOf lo hi n x < n := by
  unfold binIndexOf
  cases hfind : (List.range (n - 1)).find? (fun i => decide (x < binEdges lo hi n (i + 1))) with
  | none =>
    simp only [Option.getD_none]
    omega
  | some i =>
    have hmem := List.mem_range.mp (List.mem_of_find?_eq_some hfind)
    simp only [Option.getD_some]
    omega

theorem indicator_range_sum (k : ℕ) :
    ∀ n : ℕ, k < n → ((List.range n).map (fun i => if k = i then 1 else 0)).sum = 1 := by
  intro n
  induction n with
  | zero => omega
  | succ m ih =>
    intro hk
    rw [List.range_succ, List.map_append, List.sum_append]
    by_cases h : k = m
    · subst h
      have : ((List.range k).map (fun i => if k = i then 1 else 0)).sum = 0 := by
        apply List.sum_eq_zero
        intro y hy
        rcases List.mem_map.mp hy with ⟨i, hi, rfl⟩
        have : i < k := List.mem_range.mp hi
        simp [Nat.ne_of_gt this]
      simp [this]
    · have hk' : k < m := by omega
      rw [ih hk']
      simp [h]

theorem bucket_counts_sum (f : ℚ → ℕ) (n : ℕ) (xs : List ℚ) (h : ∀ x ∈ xs, f x < n) :
    ((List.range n).map (fun i => xs.countP (fun x => decide (f x = i)))).sum = xs.length := by
  induction xs with
  | nil => simp
  | cons x xs ih =>
    have hx : f x < n := h x (List.mem_cons_self x xs)
    have hxs : ∀ y ∈ xs, f y < n := fun y hy => h y (List.mem_cons_of_mem x hy)
    have hsplit : ∀ i : ℕ, (x :: xs).countP (fun y => decide (f y = i)) =
        xs.countP (fun y => decide (f y = i)) + (if f x = i then 1 else 0) := by
      intro i
      rw [List.countP_cons]
      by_cases hfx : f x = i <;> simp [hfx]
    calc ((List.range n).map (fun i => (x :: xs).countP (fun y => decide (f y = i)))).sum
        = ((List.range n).map
            (fun i => xs.countP (fun y => decide (f y = i)) + (if f x = i then 1 else 0))).sum := by
          congr 1
          exact List.map_congr_left (fun i _ => hsplit i)
      _ = ((List.range n).map (fun i => xs.countP (fun y => decide (f y = i)))).sum
            + ((List.range n).map (fun i => if f x = i then 1 else 0)).sum := by
          rw [← List.sum_map_add]
      _ = xs.length + 1 := by rw [ih hxs, indicator_range_sum (f x) n hx]
      _ = (x :: xs).length := by simp [Nat.add_comm]

theorem histCounts_sum {n : ℕ} (hn : 0 < n) (lo hi : ℚ) (xs : List ℚ) :
    (histCounts lo hi n xs).sum = xs.length := by
  unfold histCounts
  exact bucket_counts_sum _ n xs (fun x _ => binIndexOf_lt hn lo hi x)

theorem histCounts_length (lo hi : ℚ) (n : ℕ) (xs : List ℚ) :
    (histCounts lo hi n xs).length = n := by
  simp [histCounts]

theorem n_bins_for_bounds (l : List ℚ) :
    2 ≤ n_bins_for l ∧ n_bins_for l ≤ 10 ∧ n_bins_for l ≤ max 2 l.dedup.length := by
  unfold n_bins_for
  show 2 ≤ (if min 10 l.dedup.length < 2 then 2 else min 10 l.dedup.length) ∧
    (if min 10 l.dedup.length < 2 then 2 else min 10 l.dedup.length) ≤ 10 ∧
    (if min 10 l.dedup.length < 2 then 2 else min 10 l.dedup.length) ≤ max 2 l.dedup.length
  split_ifs with h
  · exact ⟨le_rfl, by norm_num, le_max_left 2 _⟩
  · push_neg at h
    exact ⟨h, min_le_left _ _, le_max_of_le_right (min_le_right _ _)⟩

/-! ## Range predicates for oracle outputs -/

/-- The optional float, when finite, lies in `[0, 1]` (true of every
p-value the scipy routines return). -/
def PIn01 (v : PyFloat) : Prop := ∀ q, v = some q → 0 ≤ q ∧ q ≤ 1

/-- The optional float, when finite, is nonnegative. -/
def PNonneg (v : PyFloat) : Prop := ∀ q, v = some q → 0 ≤ q

/-- The optional float, when finite, has absolute value at most 1 (true
of every correlation coefficient). -/
def PAbsLe1 (v : PyFloat) : Prop := ∀ q, v = some q → |q| ≤ 1

/-- Per-test result invariant: a success carries a tier among
TIER_1/TIER_2/TIER_3 together with a match score, and an error carries
neither. -/
def TierOk (t : TestResult) : Prop :=
  (t.error = none →
    ∃ s m, t.tier = some s ∧ (s = "TIER_1" ∨ s = "TIER_2" ∨ s = "TIER_3") ∧ t.match_score = some m)
  ∧ (∀ e, t.error = some e → t.tier = none ∧ t.match_score = none)

/-- Per-test score invariant: any match score carried lies in `[0, 1]`. -/
def ScoreOk (t : TestResult) : Prop := ∀ s, t.match_score = some s → 0 ≤ s ∧ s ≤ 1

theorem pvalue_tier_mem (p : PyFloat) :
    pvalue_tier p = "TIER_1" ∨ pvalue_tier p = "TIER_2" ∨ pvalue_tier p = "TIER_3" := by
  unfold pvalue_tier
  split_ifs <;> simp

theorem ite_tier_mem (c1 c2 : Prop) [Decidable c1] [Decidable c2] :
    (if c1 then "TIER_1" else if c2 then "TIER_2" else "TIER_3") = "TIER_1" ∨
    (if c1 then "TIER_1" else if c2 then "TIER_2" else "TIER_3") = "TIER_2" ∨
    (if c1 then "TIER_1" else if c2 then "TIER_2" else "TIER_3") = "TIER_3" := by
  split_ifs <;> simp

theorem orZero_mem_of_PIn01 {v : PyFloat} (h : PIn01 v) :
    0 ≤ orZero (safe_float v) ∧ orZero (safe_float v) ≤ 1 := by
  cases v with
  | none => simp [orZero, safe_float]
  | some q => simpa [orZero, safe_float] using h q rfl

theorem one_sub_min_one_mem {x : ℚ} (h : 0 ≤ x) :
    0 ≤ 1 - min x 1 ∧ 1 - min x 1 ≤ 1 := by
  constructor
  · have : min x 1 ≤ 1 := min_le_right x 1
    linarith
  · have : 0 ≤ min x 1 := le_min h (by norm_num)
    linarith

/-! ## Per-test shape lemmas: a success carries a tier among
TIER_1/TIER_2/TIER_3 and a match score; an error carries neither -/

theorem tierOk_error_record (name e : String) : TierOk { test := name, error := some e } := by
  unfold TierOk
  simp

theorem tierOk_chi_square (o : Scipy) (a b : List ℚ) : TierOk (chi_square_test o a b) := by
  by_cases hlen : (a ++ b).length = 0
  · simp only [chi_square_test]
    rw [if_pos hlen]
    exact tierOk_error_record _ _
  · rcases h : o.chi2_contingency (chi_contingency_rows a b).1 (chi_contingency_rows a b).2 with e | ⟨c, p⟩
    · simp only [chi_square_test, h]
      rw [if_neg hlen]
      exact tierOk_error_record _ _
    · simp only [chi_square_test, h]
      rw [if_neg hlen]
      unfold TierOk
      exact ⟨fun _ => ⟨_, _, rfl, pvalue_tier_mem _, rfl⟩, fun e he => by simp at he⟩

theorem tierOk_ks (o : Scipy) (a b : List ℚ) : TierOk (ks_test o a b) := by
  rcases h : o.ks_2samp a b with e | p
  · simp only [ks_test, h]
    exact tierOk_error_record _ _
  · simp only [ks_test, h]
    unfold TierOk
    exact ⟨fun _ => ⟨_, _, rfl, ite_tier_mem _ _, rfl⟩, fun e he => by simp at he⟩

theorem tierOk_jensen_shannon (o : Scipy) (a b : List ℚ) : TierOk (jensen_shannon_divergence o a b) := by
  by_cases hs : a.sum = 0 ∨ b.sum = 0
  · simp only [jensen_shannon_divergence]
    rw [if_pos hs]
    exact tierOk_error_record _ _
  · simp only [jensen_shannon_divergence]
    rw [if_neg hs]
    unfold TierOk
    exact ⟨fun _ => ⟨_, _, rfl, ite_tier_mem _ _, rfl⟩, fun e he => by simp at he⟩

theorem tierOk_mann_whitney (o : Scipy) (a b : List ℚ) : TierOk (mann_whitney_test o a b) := by
  by_cases hg : a.length < 3 ∨ b.length < 3
  · simp only [mann_whitney_test]
    rw [if_pos hg]
    exact tierOk_error_record _ _
  · rcases h : o.mannwhitneyu a b with e | ⟨s, p⟩
    · simp only [mann_whitney_test, h]
      rw [if_neg hg]
      exact tierOk_error_record _ _
    · simp only [mann_whitney_test, h]
      rw [if_neg hg]
      unfold TierOk
      exact ⟨fun _ => ⟨_, _, rfl, pvalue_tier_mem _, rfl⟩, fun e he => by simp at he⟩

theorem tierOk_t_test (o : Scipy) (a b : List ℚ) : TierOk (t_test o a b) := by
  by_cases hg : a.length < 2 ∨ b.length < 2
  · simp only [t_test]
    rw [if_pos hg]
    exact tierOk_error_record _ _
  · rcases h : o.ttest_ind a b with e | ⟨s, p⟩
    · simp only [t_test, h]
      rw [if_neg hg]
      exact tierOk_error_record _ _
    · simp only [t_test, h]
      rw [if_neg hg]
      unfold TierOk
      exact ⟨fun _ => ⟨_, _, rfl, pvalue_tier_mem _, rfl⟩, fun e he => by simp at he⟩

theorem tierOk_anderson_darling (o : Scipy) (a b : List ℚ) : TierOk (anderson_darling_test o a b) := by
  by_cases hg : a.length < 3 ∨ b.length < 3
  · simp only [anderson_darling_test]
    rw [if_pos hg]
    exact tierOk_error_record _ _
  · rcases h : o.anderson_ksamp a b with e | ⟨s, pattr⟩
    · simp only [anderson_darling_test, h]
      rw [if_neg hg]
      exact tierOk_error_record _ _
    · by_cases htr : pyTruthyO pattr = true
      · simp only [anderson_darling_test, h]
        rw [if_neg hg, if_pos htr]
        unfold TierOk
        exact ⟨fun _ => ⟨_, _, rfl, pvalue_tier_mem _, rfl⟩, fun e he => by simp at he⟩
      · simp only [anderson_darling_test, h]
        rw [if_neg hg, if_neg htr]
        unfold TierOk
        exact ⟨fun _ => ⟨_, _, rfl, ite_tier_mem _ _, rfl⟩, fun e he => by simp at he⟩

theorem tierOk_wasserstein (a b : List ℚ) : TierOk (wasserstein_distance_test a b) := by
  by_cases hg : a.length = 0 ∨ b.length = 0
  · simp only [wasserstein_distance_test]
    rw [if_pos hg]
    exact tierOk_error_record _ _
  · simp only [wasserstein_distance_test]
    rw [if_neg hg]
    unfold TierOk
    exact ⟨fun _ => ⟨_, _, rfl, ite_tier_mem _ _, rfl⟩, fun e he => by simp at he⟩

theorem tierOk_correlation (o : Scipy) (a b : List ℚ) : TierOk (correlation_test o a b) := by
  simp only [correlation_test]
  set td := (if a.length ≠ b.length then
      (a.take (min a.length b.length), b.take (min a.length b.length)) else (a, b)) with htd
  by_cases hg : td.1.length < 3
  · rw [if_pos hg]
    exact tierOk_error_record _ _
  · rcases h : o.pearsonr td.1 td.2 with e | ⟨pr, pp⟩
    · rw [if_neg hg]
      simp only [h]
      exact tierOk_error_record _ _
    · rcases h2 : o.spearmanr td.1 td.2 with e2 | ⟨sr, sp⟩
      · rw [if_neg hg]
        simp only [h, h2]
        exact tierOk_error_record _ _
      · rw [if_neg hg]
        simp only [h, h2]
        unfold TierOk
        exact ⟨fun _ => ⟨_, _, rfl, ite_tier_mem _ _, rfl⟩, fun e he => by simp at he⟩

theorem tierOk_error_metrics (o : Scipy) (a b : List ℚ) : TierOk (error_metrics o a b) := by
  simp only [error_metrics]
  set td := (if a.length ≠ b.length then
      (a.take (min a.length b.length), b.take (min a.length b.length)) else (a, b)) with htd
  by_cases hg : td.1.length = 0
  · rw [if_pos hg]
    exact tierOk_error_record _ _
  · rw [if_neg hg]
    unfold TierOk
    exact ⟨fun _ => ⟨_, _, rfl, ite_tier_mem _ _, rfl⟩, fun e he => by simp at he⟩

theorem tierOk_distribution_summary (o : Scipy) (a b : List ℚ) : TierOk (distribution_summary o a b) := by
  simp only [distribution_summary]
  unfold TierOk
  exact ⟨fun _ => ⟨_, _, rfl, ite_tier_mem _ _, rfl⟩, fun e he => by simp at he⟩

theorem tierOk_kullback_leibler (o : Scipy) (a b : List ℚ) : TierOk (kullback_leibler_divergence o a b) := by
  by_cases hs : a.sum = 0 ∨ b.sum = 0
  · simp only [kullback_leibler_divergence]
    rw [if_pos hs]
    exact tierOk_error_record _ _
  · simp only [kullback_leibler_divergence]
    rw [if_neg hs]
    unfold TierOk
    exact ⟨fun _ => ⟨_, _, rfl, ite_tier_mem _ _, rfl⟩, fun e he => by simp at he⟩

theorem tierOk_cramer_von_mises (o : Scipy) (a b : List ℚ) : TierOk (cramer_von_mises_test o a b) := by
  by_cases hg : a.length < 3 ∨ b.length < 3
  · simp only [cramer_von_mises_test]
    rw [if_pos hg]
    exact tierOk_error_record _ _
  · rcases h : o.cramervonmises_2samp a b with e | ⟨s, pv⟩
    · simp only [cramer_von_mises_test, h]
      rw [if_neg hg]
      exact tierOk_error_record _ _
    · by_cases htr : pyTruthy pv = true
      · simp only [cramer_von_mises_test, h]
        rw [if_neg hg, if_pos htr]
        unfold TierOk
        exact ⟨fun _ => ⟨_, _, rfl, pvalue_tier_mem _, rfl⟩, fun e he => by simp at he⟩
      · simp only [cramer_von_mises_test, h]
        rw [if_neg hg, if_neg htr]
        unfold TierOk
        exact ⟨fun _ => ⟨_, _, rfl, ite_tier_mem _ _, rfl⟩, fun e he => by simp at he⟩

theorem tierOk_run_all_tests (o : Scipy) (a b : List ℚ) :
    ∀ t ∈ run_all_tests o a b, TierOk t := by
  intro t ht
  simp only [run_all_tests, List.mem_cons, List.mem_singleton] at ht
  rcases ht with rfl | rfl | rfl | rfl | rfl | rfl | rfl | rfl | rfl | rfl | rfl | rfl | h
  · exact tierOk_chi_square o a b
  · exact tierOk_ks o a b
  · exact tierOk_jensen_shannon o a b
  · exact tierOk_mann_whitney o a b
  · exact tierOk_t_test o a b
  · exact tierOk_anderson_darling o a b
  · exact tierOk_wasserstein a b
  · exact tierOk_correlation o a b
  · exact tierOk_error_metrics o a b
  · exact tierOk_distribution_summary o a b
  · exact tierOk_kullback_leibler o a b
  · exact tierOk_cramer_von_mises o a b
  · exact absurd h (List.not_mem_nil t)

/-! ## Per-test score lemmas: any match score carried lies in [0,1], under
the mathematically guaranteed ranges of the library outputs (p-values in
[0,1], correlation coefficients of absolute value at most 1, nonnegative
divergences and square roots) plus — where the source needs it and the
library does NOT guarantee it — nonnegativity of the anderson_darling /
cramer_von_mises statistics and of the clipped KL divergence sum -/

theorem scoreOk_error_record (name e : String) : ScoreOk { test := name, error := some e } := by
  unfold ScoreOk
  intro s hs
  simp at hs

theorem scoreOk_chi_square (o : Scipy) (a b : List ℚ)
    (hchi : ∀ x y r, o.chi2_contingency x y = .ok r → PIn01 r.2) :
    ScoreOk (chi_square_test o a b) := by
  by_cases hlen : (a ++ b).length = 0
  · simp only [chi_square_test]
    rw [if_pos hlen]
    exact scoreOk_error_record _ _
  · rcases h : o.chi2_contingency (chi_contingency_rows a b).1 (chi_contingency_rows a b).2 with e | ⟨c, p⟩
    · simp only [chi_square_test, h]
      rw [if_neg hlen]
      exact scoreOk_error_record _ _
    · simp only [chi_square_test, h]
      rw [if_neg hlen]
      unfold ScoreOk
      intro s hs
      have hx : orZero (safe_float p) = s := Option.some.inj hs
      subst hx
      exact orZero_mem_of_PIn01 (hchi _ _ _ h)

theorem scoreOk_ks (o : Scipy) (a b : List ℚ) : ScoreOk (ks_test o a b) := by
  rcases h : o.ks_2samp a b with e | p
  · simp only [ks_test, h]
    exact scoreOk_error_record _ _
  · simp only [ks_test, h]
    unfold ScoreOk
    intro s hs
    have hx : orZero (safe_float (some (1 - ks_statistic a b))) = s := Option.some.inj hs
    subst hx
    have h1 := ks_statistic_nonneg a b
    have h2 := ks_statistic_le_one a b
    constructor
    · simp only [orZero, safe_float, Option.getD_some]
      linarith
    · simp only [orZero, safe_float, Option.getD_some]
      linarith

theorem scoreOk_jensen_shannon (o : Scipy) (a b : List ℚ)
    (hjs : ∀ p q, PNonneg (o.jensenshannon p q)) :
    ScoreOk (jensen_shannon_divergence o a b) := by
  have key : ∀ v : PyFloat, PNonneg v →
      0 ≤ orZero (safe_float ((pyMin v 1).map (fun x => 1 - x))) ∧
      orZero (safe_float ((pyMin v 1).map (fun x => 1 - x))) ≤ 1 := by
    intro v hv
    cases v with
    | none => simp [orZero, safe_float, pyMin]
    | some j =>
      have hj : 0 ≤ j := hv j rfl
      simpa [orZero, safe_float, pyMin] using one_sub_min_one_mem hj
  by_cases hsum : a.sum = 0 ∨ b.sum = 0
  · simp only [jensen_shannon_divergence]
    rw [if_pos hsum]
    exact scoreOk_error_record _ _
  · simp only [jensen_shannon_divergence]
    rw [if_neg hsum]
    unfold ScoreOk
    intro s hs
    have hx := Option.some.inj hs
    subst hx
    exact key _ (hjs _ _)

theorem scoreOk_mann_whitney (o : Scipy) (a b : List ℚ)
    (hmw : ∀ x y r, o.mannwhitneyu x y = .ok r → PIn01 r.2) :
    ScoreOk (mann_whitney_test o a b) := by
  by_cases hg : a.length < 3 ∨ b.length < 3
  · simp only [mann_whitney_test]
    rw [if_pos hg]
    exact scoreOk_error_record _ _
  · rcases h : o.mannwhitneyu a b with e | ⟨st, p⟩
    · simp only [mann_whitney_test, h]
      rw [if_neg hg]
      exact scoreOk_error_record _ _
    · simp only [mann_whitney_test, h]
      rw [if_neg hg]
      unfold ScoreOk
      intro s hs
      have hx : orZero (safe_float p) = s := Option.some.inj hs
      subst hx
      exact orZero_mem_of_PIn01 (hmw _ _ _ h)

theorem scoreOk_t_test (o : Scipy) (a b : List ℚ)
    (ht : ∀ x y r, o.ttest_ind x y = .ok r → PIn01 r.2) :
    ScoreOk (t_test o a b) := by
  by_cases hg : a.length < 2 ∨ b.length < 2
  · simp only [t_test]
    rw [if_pos hg]
    exact scoreOk_error_record _ _
  · rcases h : o.ttest_ind a b with e | ⟨st, p⟩
    · simp only [t_test, h]
      rw [if_neg hg]
      exact scoreOk_error_record _ _
    · simp only [t_test, h]
      rw [if_neg hg]
      unfold ScoreOk
      intro s hs
      have hx : orZero (safe_float p) = s := Option.some.inj hs
      subst hx
      exact orZero_mem_of_PIn01 (ht _ _ _ h)

theorem scoreOk_anderson_darling (o : Scipy) (a b : List ℚ)
    (had : ∀ x y r, o.anderson_ksamp x y = .ok r →
      PNonneg r.1 ∧ ∀ pv, r.2 = some pv → PIn01 pv) :
    ScoreOk (anderson_darling_test o a b) := by
  by_cases hg : a.length < 3 ∨ b.length < 3
  · simp only [anderson_darling_test]
    rw [if_pos hg]
    exact scoreOk_error_record _ _
  · rcases h : o.anderson_ksamp a b with e | ⟨st, pattr⟩
    · simp only [anderson_darling_test, h]
      rw [if_neg hg]
      exact scoreOk_error_record _ _
    · by_cases htr : pyTruthyO pattr = true
      · simp only [anderson_darling_test, h]
        rw [if_neg hg, if_pos htr]
        unfold ScoreOk
        intro s hs
        have hx := Option.some.inj hs
        subst hx
        cases pattr with
        | none => simp [pyTruthyO] at htr
        | some pv =>
          cases pv with
          | none => simp [orZero, safe_float]
          | some q =>
            simpa [orZero, safe_float] using (had _ _ _ h).2 (some q) rfl q rfl
      · simp only [anderson_darling_test, h]
        rw [if_neg hg, if_neg htr]
        unfold ScoreOk
        intro s hs
        have hx := Option.some.inj hs
        subst hx
        cases st with
        | none => simp [pyLt, pyMin, orZero, safe_float]
        | some q =>
          have hq : 0 ≤ q := (had _ _ _ h).1 q rfl
          by_cases h5 : q < 5
          · have hq5 : 0 ≤ q / 5 := by positivity
            simpa [pyLt, h5, pyMin, orZero, safe_float] using one_sub_min_one_mem hq5
          · simp [pyLt, h5, pyMin, orZero, safe_float]

theorem scoreOk_wasserstein (a b : List ℚ) : ScoreOk (wasserstein_distance_test a b) := by
  by_cases hg : a.length = 0 ∨ b.length = 0
  · simp only [wasserstein_distance_test]
    rw [if_pos hg]
    exact scoreOk_error_record _ _
  · simp only [wasserstein_distance_test]
    rw [if_neg hg]
    unfold ScoreOk
    intro s hs
    have hx := Option.some.inj hs
    subst hx
    have hwd := wasserstein_distance_nonneg a b
    have hnorm : 0 ≤ (if max (listMax a) (listMax b) - min (listMin a) (listMin b) > 0 then
        wasserstein_distance a b / (max (listMax a) (listMax b) - min (listMin a) (listMin b))
        else wasserstein_distance a b) := by
      split_ifs with hr
      · exact div_nonneg hwd (le_of_lt hr)
      · exact hwd
    simpa [orZero, safe_float] using one_sub_min_one_mem hnorm

theorem scoreOk_correlation (o : Scipy) (a b : List ℚ)
    (hpr : ∀ x y r, o.pearsonr x y = .ok r → PAbsLe1 r.1)
    (hsr : ∀ x y r, o.spearmanr x y = .ok r → PAbsLe1 r.1) :
    ScoreOk (correlation_test o a b) := by
  simp only [correlation_test]
  set td := (if a.length ≠ b.length then
      (a.take (min a.length b.length), b.take (min a.length b.length)) else (a, b)) with htd
  by_cases hg : td.1.length < 3
  · rw [if_pos hg]
    exact scoreOk_error_record _ _
  · rcases h : o.pearsonr td.1 td.2 with e | ⟨pr, pp⟩
    · rw [if_neg hg]
      simp only [h]
      exact scoreOk_error_record _ _
    · rcases h2 : o.spearmanr td.1 td.2 with e2 | ⟨sr, sp⟩
      · rw [if_neg hg]
        simp only [h, h2]
        exact scoreOk_error_record _ _
      · rw [if_neg hg]
        simp only [h, h2]
        unfold ScoreOk
        intro s hs
        have hx := Option.some.inj hs
        subst hx
        cases pr with
        | none => simp [orZero, safe_float]
        | some x =>
          cases sr with
          | none => simp [orZero, safe_float]
          | some y =>
            have hx1 : |x| ≤ 1 := hpr _ _ _ h x rfl
            have hy1 : |y| ≤ 1 := hsr _ _ _ h2 y rfl
            have hx0 := abs_nonneg x
            have hy0 := abs_nonneg y
            have : 0 ≤ (|x| + |y|) / 2 ∧ (|x| + |y|) / 2 ≤ 1 :=
              ⟨by positivity, by linarith⟩
            simpa [orZero, safe_float] using this

theorem scoreOk_error_metrics (o : Scipy) (a b : List ℚ)
    (hsqrt : ∀ q, 0 ≤ o.sqrt q) : ScoreOk (error_metrics o a b) := by
  simp only [error_metrics]
  set td := (if a.length ≠ b.length then
      (a.take (min a.length b.length), b.take (min a.length b.length)) else (a, b)) with htd
  by_cases hg : td.1.length = 0
  · rw [if_pos hg]
    exact scoreOk_error_record _ _
  · rw [if_neg hg]
    unfold ScoreOk
    intro s hs
    have hx := Option.some.inj hs
    subst hx
    have hmae : 0 ≤ qmean ((List.zipWith (fun x y => x - y) td.1 td.2).map (fun d => |d|)) := by
      refine qmean_nonneg ?_
      intro x hx
      rcases List.mem_map.mp hx with ⟨d, _, rfl⟩
      exact abs_nonneg d
    have hrmse : 0 ≤ o.sqrt (qmean ((List.zipWith (fun x y => x - y) td.1 td.2).map (fun d => d ^ 2))) :=
      hsqrt _
    simp only [orZero, safe_float, Option.getD_some]
    split_ifs with hr
    · refine one_sub_min_one_mem ?_
      have h1 : 0 ≤ qmean ((List.zipWith (fun x y => x - y) td.1 td.2).map (fun d => |d|)) /
          (max (listMax td.1) (listMax td.2) - min (listMin td.1) (listMin td.2)) :=
        div_nonneg hmae (le_of_lt hr)
      have h2 : 0 ≤ o.sqrt (qmean ((List.zipWith (fun x y => x - y) td.1 td.2).map (fun d => d ^ 2))) /
          (max (listMax td.1) (listMax td.2) - min (listMin td.1) (listMin td.2)) :=
        div_nonneg hrmse (le_of_lt hr)
      linarith
    · refine one_sub_min_one_mem ?_
      linarith

theorem ds_score_mem (sm ss rm rs : ℚ) :
    0 ≤ orZero (safe_float (some (1 - min (orZero (safe_float (some ((
      (if (if max |sm| |rm| > 0 then max |sm| |rm| else 1) > 0 then
        orZero (safe_float (some (|sm - rm| / (if max |sm| |rm| > 0 then max |sm| |rm| else 1))))
       else 0)
      + (if (if max ss rs > 0 then max ss rs else 1) > 0 then
        orZero (safe_float (some (|ss - rs| / (if max ss rs > 0 then max ss rs else 1))))
       else 0)) / 2)))) 1))) ∧
    orZero (safe_float (some (1 - min (orZero (safe_float (some ((
      (if (if max |sm| |rm| > 0 then max |sm| |rm| else 1) > 0 then
        orZero (safe_float (some (|sm - rm| / (if max |sm| |rm| > 0 then max |sm| |rm| else 1))))
       else 0)
      + (if (if max ss rs > 0 then max ss rs else 1) > 0 then
        orZero (safe_float (some (|ss - rs| / (if max ss rs > 0 then max ss rs else 1))))
       else 0)) / 2)))) 1))) ≤ 1 := by
  have key2 : ∀ u v : ℚ, 0 ≤ u →
      0 ≤ (if (if v > 0 then v else 1) > 0 then u / (if v > 0 then v else 1) else 0) := by
    intro u v hu
    have hpos : 0 < (if v > 0 then v else 1) := by
      split_ifs with h
      · exact h
      · norm_num
    rw [if_pos hpos]
    exact div_nonneg hu (le_of_lt hpos)
  simp only [orZero, safe_float, Option.getD_some]
  refine one_sub_min_one_mem ?_
  have h1 := key2 |sm - rm| (max |sm| |rm|) (abs_nonneg _)
  have h2 := key2 |ss - rs| (max ss rs) (abs_nonneg _)
  linarith

theorem scoreOk_distribution_summary (o : Scipy) (a b : List ℚ) :
    ScoreOk (distribution_summary o a b) := by
  simp only [distribution_summary]
  unfold ScoreOk
  intro s hs
  have hx := Option.some.inj hs
  subst hx
  exact ds_score_mem _ _ _ _

theorem scoreOk_kullback_leibler (o : Scipy) (a b : List ℚ)
    (hkl : ∀ p q, PNonneg (o.rel_entr_sum p q))
    (htanh : ∀ x, 0 ≤ x → 0 ≤ o.tanh x ∧ o.tanh x ≤ 1) :
    ScoreOk (kullback_leibler_divergence o a b) := by
  have key : ∀ v : PyFloat, PNonneg v →
      0 ≤ 1 - orZero (safe_float ((pyMin v 10).map (fun x => o.tanh (x / 5)))) ∧
      1 - orZero (safe_float ((pyMin v 10).map (fun x => o.tanh (x / 5)))) ≤ 1 := by
    intro v hv
    cases v with
    | none => simp [orZero, safe_float, pyMin]
    | some k =>
      have hk : 0 ≤ k := hv k rfl
      have harg : 0 ≤ min k 10 / 5 := by
        have : 0 ≤ min k 10 := le_min hk (by norm_num)
        positivity
      have ht := htanh _ harg
      constructor
      · show 0 ≤ 1 - o.tanh (min k 10 / 5)
        linarith [ht.2]
      · show 1 - o.tanh (min k 10 / 5) ≤ 1
        linarith [ht.1]
  by_cases hsum : a.sum = 0 ∨ b.sum = 0
  · simp only [kullback_leibler_divergence]
    rw [if_pos hsum]
    exact scoreOk_error_record _ _
  · simp only [kullback_leibler_divergence]
    rw [if_neg hsum]
    unfold ScoreOk
    intro s hs
    have hx := Option.some.inj hs
    subst hx
    exact key _ (hkl _ _)

theorem scoreOk_cramer_von_mises (o : Scipy) (a b : List ℚ)
    (hcvm : ∀ x y r, o.cramervonmises_2samp x y = .ok r → PIn01 r.2 ∧ PNonneg r.1) :
    ScoreOk (cramer_von_mises_test o a b) := by
  by_cases hg : a.length < 3 ∨ b.length < 3
  · simp only [cramer_von_mises_test]
    rw [if_pos hg]
    exact scoreOk_error_record _ _
  · rcases h : o.cramervonmises_2samp a b with e | ⟨st, pv⟩
    · simp only [cramer_von_mises_test, h]
      rw [if_neg hg]
      exact scoreOk_error_record _ _
    · by_cases htr : pyTruthy pv = true
      · simp only [cramer_von_mises_test, h]
        rw [if_neg hg, if_pos htr]
        unfold ScoreOk
        intro s hs
        have hx := Option.some.inj hs
        subst hx
        exact orZero_mem_of_PIn01 (hcvm _ _ _ h).1
      · simp only [cramer_von_mises_test, h]
        rw [if_neg hg, if_neg htr]
        unfold ScoreOk
        intro s hs
        have hx := Option.some.inj hs
        subst hx
        cases st with
        | none => simp [pyMin, orZero, safe_float]
        | some q =>
          have hq : 0 ≤ q := (hcvm _ _ _ h).2 q rfl
          have hq2 : 0 ≤ q / 2 := by positivity
          simpa [pyMin, orZero, safe_float] using one_sub_min_one_mem hq2

theorem scoreOk_run_all_tests (o : Scipy) (a b : List ℚ)
    (hchi : ∀ x y r, o.chi2_contingency x y = .ok r → PIn01 r.2)
    (hjs : ∀ p q, PNonneg (o.jensenshannon p q))
    (hmw : ∀ x y r, o.mannwhitneyu x y = .ok r → PIn01 r.2)
    (ht : ∀ x y r, o.ttest_ind x y = .ok r → PIn01 r.2)
    (had : ∀ x y r, o.anderson_ksamp x y = .ok r →
      PNonneg r.1 ∧ ∀ pv, r.2 = some pv → PIn01 pv)
    (hpr : ∀ x y r, o.pearsonr x y = .ok r → PAbsLe1 r.1)
    (hsr : ∀ x y r, o.spearmanr x y = .ok r → PAbsLe1 r.1)
    (hsqrt : ∀ q, 0 ≤ o.sqrt q)
    (hkl : ∀ p q, PNonneg (o.rel_entr_sum p q))
    (htanh : ∀ x, 0 ≤ x → 0 ≤ o.tanh x ∧ o.tanh x ≤ 1)
    (hcvm : ∀ x y r, o.cramervonmises_2samp x y = .ok r → PIn01 r.2 ∧ PNonneg r.1) :
    ∀ t ∈ run_all_tests o a b, ScoreOk t := by
  intro t htmem
  simp only [run_all_tests, List.mem_cons, List.mem_singleton] at htmem
  rcases htmem with rfl | rfl | rfl | rfl | rfl | rfl | rfl | rfl | rfl | rfl | rfl | rfl | hf
  · exact scoreOk_chi_square o a b hchi
  · exact scoreOk_ks o a b
  · exact scoreOk_jensen_shannon o a b hjs
  · exact scoreOk_mann_whitney o a b hmw
  · exact scoreOk_t_test o a b ht
  · exact scoreOk_anderson_darling o a b had
  · exact scoreOk_wasserstein a b
  · exact scoreOk_correlation o a b hpr hsr
  · exact scoreOk_error_metrics o a b hsqrt
  · exact scoreOk_distribution_summary o a b
  · exact scoreOk_kullback_leibler o a b hkl htanh
  · exact scoreOk_cramer_von_mises o a b hcvm
  · exact absurd hf (List.not_mem_nil t)

/-! ## Aggregation lemmas -/

theorem distribution_summary_error_none (o : Scipy) (a b : List ℚ) :
    (distribution_summary o a b).error = none := rfl

theorem distribution_summary_tier_isSome (o : Scipy) (a b : List ℚ) :
    ∃ s, (distribution_summary o a b).tier = some s := ⟨_, rfl⟩

/-- The distribution-summary test never fails on rational data, so the
collected tier list of a full run is never empty. -/
theorem collect_tiers_ne_nil (o : Scipy) (a b : List ℚ) :
    collect_tiers (run_all_tests o a b) ≠ [] := by
  obtain ⟨s, hs⟩ := distribution_summary_tier_isSome o a b
  have hmem : distribution_summary o a b ∈ run_all_tests o a b := by
    simp [run_all_tests]
  refine List.ne_nil_of_mem (a := s) ?_
  refine List.mem_filterMap.mpr ⟨distribution_summary o a b, hmem, ?_⟩
  rw [distribution_summary_error_none]
  exact hs

theorem collect_tiers_length_le (tests : List TestResult) :
    (collect_tiers tests).length ≤ tests.length :=
  List.length_filterMap_le _ _

theorem collect_match_scores_mem (tests : List TestResult) :
    ∀ x ∈ collect_match_scores tests, 0 ≤ x ∧ x ≤ 1 := by
  intro x hx
  rcases List.mem_filterMap.mp hx with ⟨t, _, hf⟩
  rcases herr : t.error with _ | e
  · rw [herr] at hf
    rcases hms : t.match_score with _ | m
    · rw [hms] at hf
      simp at hf
    · rw [hms] at hf
      simp only [Option.map_some] at hf
      have : clamp01 m = x := Option.some.inj hf
      subst this
      exact ⟨clamp01_nonneg m, clamp01_le_one m⟩
  · rw [herr] at hf
    simp at hf

theorem overall_accuracy_score_mem (tests : List TestResult) :
    0 ≤ overall_accuracy_score tests ∧ overall_accuracy_score tests ≤ 1 := by
  unfold overall_accuracy_score
  show (0 ≤ if (collect_match_scores tests).isEmpty = true then 0.5
      else clamp01 ((collect_match_scores tests).sum / (collect_match_scores tests).length)) ∧
    (if (collect_match_scores tests).isEmpty = true then 0.5
      else clamp01 ((collect_match_scores tests).sum / (collect_match_scores tests).length)) ≤ 1
  split_ifs with h
  · norm_num
  · exact ⟨clamp01_nonneg _, clamp01_le_one _⟩

theorem overall_tier_of_mem (a : ℚ) :
    overall_tier_of a = "TIER_1" ∨ overall_tier_of a = "TIER_2" ∨
    overall_tier_of a = "TIER_3" ∨ overall_tier_of a = "TIER_4" := by
  unfold overall_tier_of
  split_ifs <;> simp

/-- With both inputs non-empty the engine always reaches the full
aggregation branch (the collected tier list is never empty), producing
this record. -/
theorem compare_distributions_eq_full (o : Scipy) (syn real : List ℚ)
    (hs : syn ≠ []) (hr : real ≠ []) :
    compare_distributions o syn real =
      { synthetic_size := syn.length,
        real_size := real.length,
        tests := run_all_tests o syn real,
        overall_tier := some (overall_tier_of (overall_accuracy_score (run_all_tests o syn real))),
        overall_accuracy := some (overall_accuracy_score (run_all_tests o syn real)),
        tier_distribution := some (tier_counts_of (collect_tiers (run_all_tests o syn real))),
        test_summary := some
          { total_tests := (run_all_tests o syn real).length,
            successful_tests := (collect_tiers (run_all_tests o syn real)).length,
            failed_tests := (run_all_tests o syn real).length
              - (collect_tiers (run_all_tests o syn real)).length,
            tier_1_count := (tier_counts_of (collect_tiers (run_all_tests o syn real))).tier_1,
            tier_2_count := (tier_counts_of (collect_tiers (run_all_tests o syn real))).tier_2,
            tier_3_count := (tier_counts_of (collect_tiers (run_all_tests o syn real))).tier_3,
            tier_4_count := (tier_counts_of (collect_tiers (run_all_tests o syn real))).tier_4,
            average_match_score := overall_accuracy_score (run_all_tests o syn real),
            tier_1_ratio := if (collect_tiers (run_all_tests o syn real)).length > 0 then
              ((tier_counts_of (collect_tiers (run_all_tests o syn real))).tier_1 : ℚ)
                / (collect_tiers (run_all_tests o syn real)).length else 0,
            tier_2_ratio := if (collect_tiers (run_all_tests o syn real)).length > 0 then
              ((tier_counts_of (collect_tiers (run_all_tests o syn real))).tier_2 : ℚ)
                / (collect_tiers (run_all_tests o syn real)).length else 0 },
        recommendations := some (recommendations_for
          (overall_tier_of (overall_accuracy_score (run_all_tests o syn real)))
          (overall_accuracy_score (run_all_tests o syn real))
          (tier_counts_of (collect_tiers (run_all_tests o syn real)))
          (collect_tiers (run_all_tests o syn real)).length) } := by
  have h1 : ¬(syn.length = 0 ∨ real.length = 0) := by
    simp [List.length_eq_zero, hs, hr]
  have h2 : ¬(collect_tiers (run_all_tests o syn real)).length = 0 := by
    simp [List.length_eq_zero, collect_tiers_ne_nil o syn real]
  simp only [compare_distributions]
  rw [if_neg h1, if_neg h2]

/-! ## Concrete oracle instances (for witnesses and counterexamples) -/

/-- A benign oracle: every call succeeds with p-value 1, statistic 0,
correlation coefficient 1; `anderson_ksamp` exposes no `pvalue` attribute
(scipy returns `significance_level` instead, so the attribute probe in
the source finds nothing). -/
def scipyOk : Scipy :=
  { chi2_contingency := fun _ _ => .ok (some 0, some 1),
    ks_2samp := fun _ _ => .ok (some 1),
    jensenshannon := fun _ _ => some 0,
    mannwhitneyu := fun _ _ => .ok (some 0, some 1),
    ttest_ind := fun _ _ => .ok (some 0, some 1),
    anderson_ksamp := fun _ _ => .ok (some 0, none),
    pearsonr := fun _ _ => .ok (some 1, some 0),
    spearmanr := fun _ _ => .ok (some 1, some 0),
    cramervonmises_2samp := fun _ _ => .ok (some 0, some 1),
    rel_entr_sum := fun _ _ => some 0,
    tanh := fun _ => 0,
    sqrt := fun _ => 0 }

/-- The oracle behaviour scipy exhibits on constant input: `pearsonr` and
`spearmanr` warn and return `NaN` coefficients and p-values. -/
def scipyConstInput : Scipy :=
  { scipyOk with
    pearsonr := fun _ _ => .ok (none, none),
    spearmanr := fun _ _ => .ok (none, none) }

/-- The oracle behaviour scipy exhibits for `anderson_ksamp` on close
samples: the result object has no `pvalue` attribute (only
`significance_level`), and the standardized statistic is negative (the scipy
own documentation example returns a statistic of about -0.73). -/
def scipyNegAD : Scipy :=
  { scipyOk with
    anderson_ksamp := fun _ _ => .ok (some (-1), none) }

/-! ## The claims -/

/-- C1: for every pair of non-empty number lists, `compare_distributions`
sets `overall_accuracy` to the arithmetic mean of the match scores of all
tests that returned no error, each score clamped to `[0,1]` before
averaging (the final re-clamp of the mean is the identity because the
mean of clamped scores already lies in `[0,1]`); the aggregation step
defaults to 0.5 when no usable score was collected. -/
theorem overall_accuracy_is_mean_of_clamped_scores (o : Scipy) (syn real : List ℚ)
    (hs : syn ≠ []) (hr : real ≠ []) :
    (compare_distributions o syn real).overall_accuracy
        = some (overall_accuracy_score (run_all_tests o syn real)) ∧
    (∀ ts : List TestResult, collect_match_scores ts ≠ [] →
      overall_accuracy_score ts
        = (collect_match_scores ts).sum / (collect_match_scores ts).length) ∧
    (∀ ts : List TestResult, collect_match_scores ts = [] →
      overall_accuracy_score ts = 0.5) := by
  refine ⟨?_, ?_, ?_⟩
  · rw [compare_distributions_eq_full o syn real hs hr]
  · intro ts hne
    have hb := qmean_mem_of_bounds hne (collect_match_scores_mem ts)
    unfold overall_accuracy_score
    show (if (collect_match_scores ts).isEmpty = true then 0.5
        else clamp01 ((collect_match_scores ts).sum / (collect_match_scores ts).length))
      = (collect_match_scores ts).sum / (collect_match_scores ts).length
    rw [if_neg (by simp [hne])]
    exact clamp01_eq_of_mem hb.1 hb.2
  · intro ts hnil
    unfold overall_accuracy_score
    show (if (collect_match_scores ts).isEmpty = true then 0.5
        else clamp01 ((collect_match_scores ts).sum / (collect_match_scores ts).length)) = 0.5
    rw [if_pos (by simp [hnil])]

theorem overall_accuracy_is_mean_witness :
    (compare_distributions scipyOk [1] [1]).overall_accuracy
      = some (overall_accuracy_score (run_all_tests scipyOk [1] [1])) :=
  (overall_accuracy_is_mean_of_clamped_scores scipyOk [1] [1] (by decide) (by decide)).1

/-- C2: with non-empty inputs and at least one successful test, the
overall tier is a function of the overall accuracy alone, through the
thresholds `>0.85 → TIER_1`, `>0.75 → TIER_2`, `>0.50 → TIER_3`, else
`TIER_4`; any two runs (any oracles, any non-empty inputs) with equal
overall accuracy get equal overall tiers, so the per-test tier counts
have no influence. -/
theorem overall_tier_from_accuracy_thresholds (o : Scipy) (syn real : List ℚ)
    (hs : syn ≠ []) (hr : real ≠ [])
    (hsucc : collect_tiers (run_all_tests o syn real) ≠ []) :
    ∃ a, (compare_distributions o syn real).overall_accuracy = some a ∧
      (compare_distributions o syn real).overall_tier = some
        (if a > 0.85 then "TIER_1" else if a > 0.75 then "TIER_2"
         else if a > 0.50 then "TIER_3" else "TIER_4") ∧
      ∀ (o2 : Scipy) (syn2 real2 : List ℚ), syn2 ≠ [] → real2 ≠ [] →
        (compare_distributions o2 syn2 real2).overall_accuracy
            = (compare_distributions o syn real).overall_accuracy →
        (compare_distributions o2 syn2 real2).overall_tier
            = (compare_distributions o syn real).overall_tier := by
  rw [compare_distributions_eq_full o syn real hs hr]
  refine ⟨overall_accuracy_score (run_all_tests o syn real), rfl, rfl, ?_⟩
  intro o2 syn2 real2 hs2 hr2 hacc
  rw [compare_distributions_eq_full o2 syn2 real2 hs2 hr2] at hacc ⊢
  simp only at hacc ⊢
  rw [Option.some.inj hacc]

theorem overall_tier_from_accuracy_witness :
    ∃ a, (compare_distributions scipyOk [1] [1]).overall_accuracy = some a ∧
      (compare_distributions scipyOk [1] [1]).overall_tier = some
        (if a > 0.85 then "TIER_1" else if a > 0.75 then "TIER_2"
         else if a > 0.50 then "TIER_3" else "TIER_4") ∧
      ∀ (o2 : Scipy) (syn2 real2 : List ℚ), syn2 ≠ [] → real2 ≠ [] →
        (compare_distributions o2 syn2 real2).overall_accuracy
            = (compare_distributions scipyOk [1] [1]).overall_accuracy →
        (compare_distributions o2 syn2 real2).overall_tier
            = (compare_distributions scipyOk [1] [1]).overall_tier :=
  overall_tier_from_accuracy_thresholds scipyOk [1] [1] (by decide) (by decide) (by decide)

/-- C3: with an empty input on either side, `compare_distributions`
short-circuits: the only test entry is the `data_validation` error, the
overall tier is TIER_4, and the result carries no `overall_accuracy`
key. -/
theorem compare_empty_short_circuit (o : Scipy) (syn real : List ℚ)
    (h : syn = [] ∨ real = []) :
    (compare_distributions o syn real).tests =
      [{ test := "data_validation", error := some "One or both datasets are empty" }] ∧
    (compare_distributions o syn real).overall_tier = some "TIER_4" ∧
    (compare_distributions o syn real).overall_accuracy = none := by
  have hcond : syn.length = 0 ∨ real.length = 0 := by
    rcases h with rfl | rfl
    · exact Or.inl rfl
    · exact Or.inr rfl
  simp only [compare_distributions]
  rw [if_pos hcond]
  exact ⟨rfl, rfl, rfl⟩

theorem compare_empty_short_circuit_witness :
    (compare_distributions scipyOk [] [1, 2, 3]).tests =
      [{ test := "data_validation", error := some "One or both datasets are empty" }] ∧
    (compare_distributions scipyOk [] [1, 2, 3]).overall_tier = some "TIER_4" ∧
    (compare_distributions scipyOk [] [1, 2, 3]).overall_accuracy = none :=
  compare_empty_short_circuit scipyOk [] [1, 2, 3] (Or.inl rfl)

/-- C5: every TestResult returned by any of the twelve per-test functions
carries either a tier and a match score (success, no error key), or an
error and neither tier nor match score — never both. -/
theorem testresult_tier_xor_error (o : Scipy) (syn real : List ℚ) (t : TestResult)
    (ht : t ∈ run_all_tests o syn real) :
    (t.error = none → (∃ s, t.tier = some s) ∧ ∃ m, t.match_score = some m) ∧
    (∀ e, t.error = some e → t.tier = none ∧ t.match_score = none) := by
  have h := tierOk_run_all_tests o syn real t ht
  refine ⟨fun he => ?_, h.2⟩
  obtain ⟨s, m, hs, _, hm⟩ := h.1 he
  exact ⟨⟨s, hs⟩, ⟨m, hm⟩⟩

theorem testresult_tier_xor_error_witness :
    (∃ s, (distribution_summary scipyOk [1] [1]).tier = some s) ∧
    ∃ m, (distribution_summary scipyOk [1] [1]).match_score = some m :=
  (testresult_tier_xor_error scipyOk [1] [1] (distribution_summary scipyOk [1] [1])
    (by simp [run_all_tests])).1 rfl

/-- The output contract of `compare_distributions` (spec section 6): a
tier among the four tiers is always present; the test list has 1 entry
(short-circuit) or 12; any reported accuracy lies in `[0,1]`; any test
summary satisfies `total = successful + failed`. -/
def ResultWellFormed (r : ComparisonResult) : Prop :=
  (∃ t, r.overall_tier = some t ∧
    (t = "TIER_1" ∨ t = "TIER_2" ∨ t = "TIER_3" ∨ t = "TIER_4")) ∧
  (r.tests.length = 1 ∨ r.tests.length = 12) ∧
  (∀ a, r.overall_accuracy = some a → 0 ≤ a ∧ a ≤ 1) ∧
  (∀ s, r.test_summary = some s → s.total_tests = s.successful_tests + s.failed_tests)

/-- C8: `compare_distributions` is a total function of its inputs (no
exception escapes: in the model every per-test oracle failure is mapped
to an error entry), and for every oracle and every pair of lists the
result is well-formed. -/
theorem compare_distributions_never_throws (o : Scipy) (syn real : List ℚ) :
    ResultWellFormed (compare_distributions o syn real) := by
  by_cases hempty : syn.length = 0 ∨ real.length = 0
  · simp only [compare_distributions]
    rw [if_pos hempty]
    refine ⟨⟨"TIER_4", rfl, by simp⟩, Or.inl rfl, ?_, ?_⟩
    · intro a ha
      simp at ha
    · intro s hsummary
      simp at hsummary
  · push_neg at hempty
    have hs : syn ≠ [] := by
      intro hcon
      exact hempty.1 (by simp [hcon])
    have hr : real ≠ [] := by
      intro hcon
      exact hempty.2 (by simp [hcon])
    rw [compare_distributions_eq_full o syn real hs hr]
    refine ⟨⟨_, rfl, overall_tier_of_mem _⟩, Or.inr (by simp [run_all_tests]), ?_, ?_⟩
    · intro a ha
      have := Option.some.inj ha
      subst this
      exact overall_accuracy_score_mem _
    · intro s hsummary
      have := Option.some.inj hsummary
      subst this
      have hle := collect_tiers_length_le (run_all_tests o syn real)
      simp only
      omega

theorem compare_distributions_never_throws_witness :
    ResultWellFormed (compare_distributions scipyOk [1] [1]) :=
  compare_distributions_never_throws scipyOk [1] [1]

/-- C9: whenever the truncated common length is below 3, the correlation
test returns the `Insufficient data` error instead of computing the
correlations. -/
theorem correlation_insufficient_data (o : Scipy) (syn real : List ℚ)
    (h : min syn.length real.length < 3) :
    correlation_test o syn real = { test := "correlation", error := some "Insufficient data" } := by
  simp only [correlation_test]
  set td := (if syn.length ≠ real.length then
      (syn.take (min syn.length real.length), real.take (min syn.length real.length))
      else (syn, real)) with htd
  have hg : td.1.length < 3 := by
    rw [htd]
    split_ifs with hne
    · simp only [List.length_take]
      omega
    · push_neg at hne
      simp only
      omega
  rw [if_pos hg]

theorem correlation_insufficient_data_witness :
    correlation_test scipyOk [1, 2] [3, 4, 5] =
      { test := "correlation", error := some "Insufficient data" } :=
  correlation_insufficient_data scipyOk [1, 2] [3, 4, 5] (by decide)

/-- C10: no per-test result ever carries TIER_4 (per-test tier rules only
produce TIER_1/TIER_2/TIER_3), so in every aggregated result the TIER_4
entry of `tier_distribution` and the `tier_4_count` of `test_summary` are
zero. -/
theorem per_test_never_tier4 (o : Scipy) (syn real : List ℚ) :
    (∀ t ∈ run_all_tests o syn real, t.tier ≠ some "TIER_4") ∧
    (∀ td, (compare_distributions o syn real).tier_distribution = some td → td.tier_4 = 0) ∧
    (∀ s, (compare_distributions o syn real).test_summary = some s → s.tier_4_count = 0) := by
  have hmain : ∀ t ∈ run_all_tests o syn real, t.tier ≠ some "TIER_4" := by
    intro t ht hcon
    have h := tierOk_run_all_tests o syn real t ht
    cases herr : t.error with
    | none =>
      obtain ⟨s, m, hsome, hmem, _⟩ := h.1 herr
      rw [hcon] at hsome
      have hs4 : "TIER_4" = s := Option.some.inj hsome
      rcases hmem with h1 | h2 | h3 <;> simp_all
    | some e =>
      have hnone := (h.2 e herr).1
      rw [hcon] at hnone
      exact Option.noConfusion hnone
  have hcount : (collect_tiers (run_all_tests o syn real)).count "TIER_4" = 0 := by
    rw [List.count_eq_zero]
    intro hmem
    rcases List.mem_filterMap.mp hmem with ⟨t, htm, hf⟩
    cases herr : t.error with
    | none =>
      rw [herr] at hf
      exact hmain t htm hf
    | some e =>
      rw [herr] at hf
      exact Option.noConfusion hf
  refine ⟨hmain, ?_, ?_⟩
  · intro td htd
    by_cases hempty : syn.length = 0 ∨ real.length = 0
    · simp only [compare_distributions] at htd
      rw [if_pos hempty] at htd
      exact Option.noConfusion htd
    · push_neg at hempty
      have hs : syn ≠ [] := fun hcon => hempty.1 (by simp [hcon])
      have hr : real ≠ [] := fun hcon => hempty.2 (by simp [hcon])
      rw [compare_distributions_eq_full o syn real hs hr] at htd
      simp only at htd
      have := Option.some.inj htd
      subst this
      exact hcount
  · intro s hsummary
    by_cases hempty : syn.length = 0 ∨ real.length = 0
    · simp only [compare_distributions] at hsummary
      rw [if_pos hempty] at hsummary
      exact Option.noConfusion hsummary
    · push_neg at hempty
      have hs : syn ≠ [] := fun hcon => hempty.1 (by simp [hcon])
      have hr : real ≠ [] := fun hcon => hempty.2 (by simp [hcon])
      rw [compare_distributions_eq_full o syn real hs hr] at hsummary
      simp only at hsummary
      have := Option.some.inj hsummary
      subst this
      exact hcount

theorem per_test_never_tier4_witness :
    (tier_counts_of (collect_tiers (run_all_tests scipyOk [1] [1]))).tier_4 = 0 :=
  (per_test_never_tier4 scipyOk [1] [1]).2.1
    (tier_counts_of (collect_tiers (run_all_tests scipyOk [1] [1])))
    (by rw [compare_distributions_eq_full scipyOk [1] [1] (by decide) (by decide)])


/-- C6 (amended): every match score carried by a successful test lies in
`[0,1]`, given the ranges the library guarantees (p-values in `[0,1]`,
correlation coefficients of absolute value at most 1, nonnegative
Jensen-Shannon distance and square roots) AND the extra assumptions the
source needs but the library does not guarantee: nonnegativity of the
anderson_darling and cramer_von_mises statistics in the fallback
branches, and of the clipped `rel_entr` sum.  (The counterexample shows
the claim fails without the anderson_darling assumption.) -/
theorem match_score_in_unit_interval (o : Scipy) (syn real : List ℚ)
    (hchi : ∀ x y r, o.chi2_contingency x y = .ok r → PIn01 r.2)
    (hjs : ∀ p q, PNonneg (o.jensenshannon p q))
    (hmw : ∀ x y r, o.mannwhitneyu x y = .ok r → PIn01 r.2)
    (htt : ∀ x y r, o.ttest_ind x y = .ok r → PIn01 r.2)
    (had : ∀ x y r, o.anderson_ksamp x y = .ok r →
      PNonneg r.1 ∧ ∀ pv, r.2 = some pv → PIn01 pv)
    (hpr : ∀ x y r, o.pearsonr x y = .ok r → PAbsLe1 r.1)
    (hsr : ∀ x y r, o.spearmanr x y = .ok r → PAbsLe1 r.1)
    (hsqrt : ∀ q, 0 ≤ o.sqrt q)
    (hkl : ∀ p q, PNonneg (o.rel_entr_sum p q))
    (htanh : ∀ x, 0 ≤ x → 0 ≤ o.tanh x ∧ o.tanh x ≤ 1)
    (hcvm : ∀ x y r, o.cramervonmises_2samp x y = .ok r → PIn01 r.2 ∧ PNonneg r.1) :
    ∀ t ∈ run_all_tests o syn real, t.error = none →
      ∀ s, t.match_score = some s → 0 ≤ s ∧ s ≤ 1 := by
  intro t htmem _ s hs
  exact scoreOk_run_all_tests o syn real hchi hjs hmw htt had hpr hsr hsqrt hkl htanh hcvm
    t htmem s hs

theorem match_score_in_unit_interval_witness : (0 : ℚ) ≤ 1 ∧ (1 : ℚ) ≤ 1 :=
  match_score_in_unit_interval scipyOk [1] [1]
    (by intro x y r h; cases h; intro q hq; cases hq; norm_num)
    (by intro p q v hv; cases hv; norm_num)
    (by intro x y r h; cases h; intro q hq; cases hq; norm_num)
    (by intro x y r h; cases h; intro q hq; cases hq; norm_num)
    (by intro x y r h; cases h
        exact ⟨fun v hv => by cases hv; norm_num, fun pv hpv => Option.noConfusion hpv⟩)
    (by intro x y r h; cases h; intro q hq; cases hq; norm_num)
    (by intro x y r h; cases h; intro q hq; cases hq; norm_num)
    (fun q => by simp [scipyOk])
    (by intro p q v hv; cases hv; norm_num)
    (fun x hx => ⟨by simp [scipyOk], by simp [scipyOk]⟩)
    (by intro x y r h; cases h
        exact ⟨fun q hq => by cases hq; norm_num, fun q hq => by cases hq; norm_num⟩)
    (wasserstein_distance_test [1] [1]) (by simp [run_all_tests]) (by decide) 1
    (by simp only [wasserstein_distance_test]
        rw [if_neg (by norm_num)]
        norm_num [wasserstein_distance_self, listMax, listMin, orZero, safe_float])

/-- C6 (counterexample): with the statistic-based fallback branch of
anderson_darling live (the scipy result object exposes
`significance_level`, not `pvalue`, so the attribute probe fails) and a
negative statistic (scipy produces e.g. about -0.73 for close samples;
here -1), the test succeeds with `match_score = 1 - (-1/5) = 6/5 > 1`,
outside `[0,1]`. -/
theorem anderson_fallback_score_above_one :
    (anderson_darling_test scipyNegAD [1, 2, 3] [1, 2, 3]).error = none ∧
    (anderson_darling_test scipyNegAD [1, 2, 3] [1, 2, 3]).match_score = some (6 / 5) ∧
    ¬((6 : ℚ) / 5 ≤ 1) := by
  refine ⟨?_, ?_, by norm_num⟩
  · simp only [anderson_darling_test, scipyNegAD, scipyOk]
    rw [if_neg (by norm_num)]
    rw [if_neg (by simp [pyTruthyO, pyTruthy])]
  · simp only [anderson_darling_test, scipyNegAD, scipyOk]
    rw [if_neg (by norm_num)]
    rw [if_neg (by simp [pyTruthyO, pyTruthy])]
    norm_num [pyLt, pyMin, orZero, safe_float, min_def]

/-- C7 (amended): the chi-square test bins each sample into
`n = min(10, #unique combined values)` (raised to at least 2) equal bins
spanning the own min-max range of that sample (the `np.histogram` default for
an integer bin count), so every sample point lands in exactly one of its
own bins; the contingency rows are these per-sample histogram counts.
The bin edges are NOT derived from the combined data (see the
counterexample). -/
theorem chi_square_binning (syn real : List ℚ) :
    chi_contingency_rows syn real =
      (npHistogramCounts syn (n_bins_for (syn ++ real)),
       npHistogramCounts real (n_bins_for (syn ++ real))) ∧
    (chi_contingency_rows syn real).1.length = n_bins_for (syn ++ real) ∧
    (chi_contingency_rows syn real).2.length = n_bins_for (syn ++ real) ∧
    (chi_contingency_rows syn real).1.sum = syn.length ∧
    (chi_contingency_rows syn real).2.sum = real.length ∧
    2 ≤ n_bins_for (syn ++ real) ∧ n_bins_for (syn ++ real) ≤ 10 ∧
    n_bins_for (syn ++ real) ≤ max 2 (syn ++ real).dedup.length := by
  have hb := n_bins_for_bounds (syn ++ real)
  have hn : 0 < n_bins_for (syn ++ real) := lt_of_lt_of_le (by norm_num) hb.1
  refine ⟨rfl, ?_, ?_, ?_, ?_, hb.1, hb.2.1, hb.2.2⟩
  · exact histCounts_length _ _ _ _
  · exact histCounts_length _ _ _ _
  · exact histCounts_sum hn _ _ _
  · exact histCounts_sum hn _ _ _

/-- C7 (counterexample): at `syn = [0]`, `real = [1]` the rows the source
builds differ from rows built with common bin edges derived from the
combined data: binning each sample over its own range puts the single
point of `[0]` in the upper of its two bins (constant data widens the
range to `[-0.5, 0.5]`), giving `([0,1], [0,1])`, while common bins over
`[0,1]` give `([1,0], [0,1])`. -/
theorem chi_square_bins_not_common :
    chi_contingency_rows [0] [1] ≠ chi_contingency_rows_specced [0] [1] := by
  have hA : chi_contingency_rows [0] [1] = ([0, 1], [0, 1]) := by
    norm_num [chi_contingency_rows, npHistogramCounts, histCounts, histRange, n_bins_for,
      binIndexOf, binEdges, listMin, listMax, List.range_succ, List.dedup]
  have hB : chi_contingency_rows_specced [0] [1] = ([1, 0], [0, 1]) := by
    norm_num [chi_contingency_rows_specced, histCounts, histRange, n_bins_for,
      binIndexOf, binEdges, listMin, listMax, List.range_succ, List.dedup]
  rw [hA, hB]
  simp

/-- C4 (amended): comparing any non-empty list with itself, the KS test
reports statistic 0, tier TIER_1 and match score 1 (whenever the library
call succeeds, as it does on non-empty input); the Wasserstein test
reports distance 0, tier TIER_1 and match score 1 unconditionally; and
the correlation test reports average correlation 1 and TIER_1 provided
the list has at least 3 elements and the correlation primitives return
coefficient 1 on the identical pair — which they do exactly when the
list is not constant.  (On a constant list they return NaN and the
correlation test lands in TIER_3 with average correlation 0: see the
counterexample.  Other tests need not reach TIER_1 — e.g. chi-square can
even error out when a shared bin is empty.) -/
theorem compare_self_maximal_similarity (o : Scipy) (x : List ℚ) (hx : x ≠ []) :
    (∀ p, o.ks_2samp x x = .ok p →
      ((compare_distributions o x x).tests.getD 1 default).ks_statistic = some 0 ∧
      ((compare_distributions o x x).tests.getD 1 default).tier = some "TIER_1" ∧
      ((compare_distributions o x x).tests.getD 1 default).match_score = some 1) ∧
    (((compare_distributions o x x).tests.getD 6 default).distance = some 0 ∧
     ((compare_distributions o x x).tests.getD 6 default).tier = some "TIER_1" ∧
     ((compare_distributions o x x).tests.getD 6 default).match_score = some 1) ∧
    (3 ≤ x.length → ∀ rp rs,
      o.pearsonr x x = .ok (some 1, rp) → o.spearmanr x x = .ok (some 1, rs) →
      ((compare_distributions o x x).tests.getD 7 default).average_correlation = some 1 ∧
      ((compare_distributions o x x).tests.getD 7 default).tier = some "TIER_1") := by
  rw [compare_distributions_eq_full o x x hx hx]
  have hgetD1 : (run_all_tests o x x).getD 1 default = ks_test o x x := rfl
  have hgetD6 : (run_all_tests o x x).getD 6 default = wasserstein_distance_test x x := rfl
  have hgetD7 : (run_all_tests o x x).getD 7 default = correlation_test o x x := rfl
  simp only [hgetD1, hgetD6, hgetD7]
  refine ⟨?_, ?_, ?_⟩
  · intro p hp
    simp only [ks_test, hp]
    refine ⟨by norm_num [ks_statistic_self, orZero, safe_float],
      by norm_num [ks_statistic_self, orZero, safe_float],
      by norm_num [ks_statistic_self, orZero, safe_float]⟩
  · simp only [wasserstein_distance_test]
    rw [if_neg (by simp [List.length_eq_zero, hx])]
    rw [wasserstein_distance_self]
    have h0 : (if max (listMax x) (listMax x) - min (listMin x) (listMin x) > 0 then
        (0 : ℚ) / (max (listMax x) (listMax x) - min (listMin x) (listMin x)) else 0) = 0 := by
      split_ifs <;> simp
    rw [h0]
    refine ⟨by norm_num [orZero, safe_float], by norm_num [orZero, safe_float],
      by norm_num [orZero, safe_float]⟩
  · intro h3 rp rs hp hs2
    have hng : ¬x.length < 3 := not_lt.mpr h3
    constructor
    · norm_num [correlation_test, hng, hp, hs2, pyGt, orZero, safe_float]
    · norm_num [correlation_test, hng, hp, hs2, pyGt, orZero, safe_float]

/-- C4 (counterexample): on the constant list `[1,1,1]`, the scipy functions
`pearsonr`/`spearmanr` return `NaN` on the identical pair, so the
correlation entry of `compare_distributions(x, x)` reports average
correlation 0 and tier TIER_3 — not the claimed correlation 1 and
TIER_1. -/
theorem compare_self_constant_correlation_fails :
    ((compare_distributions scipyConstInput [1, 1, 1] [1, 1, 1]).tests.getD 7 default).test
      = "correlation" ∧
    ((compare_distributions scipyConstInput [1, 1, 1] [1, 1, 1]).tests.getD 7 default).average_correlation
      = some 0 ∧
    ((compare_distributions scipyConstInput [1, 1, 1] [1, 1, 1]).tests.getD 7 default).tier
      = some "TIER_3" := by
  rw [compare_distributions_eq_full scipyConstInput [1, 1, 1] [1, 1, 1] (by decide) (by decide)]
  have hgetD7 : (run_all_tests scipyConstInput [1, 1, 1] [1, 1, 1]).getD 7 default
      = correlation_test scipyConstInput [1, 1, 1] [1, 1, 1] := rfl
  simp only [hgetD7]
  have hp : scipyConstInput.pearsonr [1, 1, 1] [1, 1, 1] = .ok (none, none) := rfl
  have hs2 : scipyConstInput.spearmanr [1, 1, 1] [1, 1, 1] = .ok (none, none) := rfl
  refine ⟨?_, ?_, ?_⟩ <;> norm_num [correlation_test, hp, hs2, pyGt, orZero, safe_float]

theorem compare_self_maximal_similarity_witness :
    ((compare_distributions scipyOk [1, 2, 3] [1, 2, 3]).tests.getD 1 default).ks_statistic
      = some 0 ∧
    ((compare_distributions scipyOk [1, 2, 3] [1, 2, 3]).tests.getD 6 default).distance
      = some 0 ∧
    ((compare_distributions scipyOk [1, 2, 3] [1, 2, 3]).tests.getD 7 default).average_correlation
      = some 1 := by
  have h := compare_self_maximal_similarity scipyOk [1, 2, 3] (by decide)
  exact ⟨(h.1 (some 1) rfl).1, h.2.1.1, (h.2.2 (by decide) (some 0) (some 0) rfl rfl).1⟩
